import Mathlib

/-
  Verification development for the rydesta interpreter
  (src/rydesta: reader.py, machine.py, master.py).

  The development shallowly embeds the interpreter's data model and the
  operations the claims are about:
    * parse nodes and patterns (reader.py: RyNode; the node/pattern tags
      produced by the Reader and consumed by machine.py),
    * runtime values (machine.py: the HasType/_Box class hierarchy),
    * pattern signatures (`_prioritize`, machine.py:269-291),
    * variation bundles and their sort order (RyVariations.add, machine.py:69-72),
    * case-arm ordering (machine.py:419-424),
    * structural equality (`_equals`, machine.py:297-310),
    * the pattern engine (`_visit_pattern`, machine.py:314-403),
    * the tree-walking evaluator (`_visit_node`, machine.py:408-682),
      with fuel for the TCO while-loop and an explicit stack budget that
      models Python's bounded recursion depth,
    * the kernel environment (Master.kernel, master.py:84-99),
    * the module loader (`Needs`, machine.py:496-520), and
    * the token-level layer of the extensible parser (reader.py).

  Python's heap sharing for captured function states is modelled by a store
  of environments addressed by natural numbers (`RyFunc.stateRef`); node
  line numbers, which the source threads only for diagnostics, are omitted.
-/

set_option maxHeartbeats 1000000
set_option maxRecDepth 8192

namespace Rydesta

/-! ### Parse nodes and patterns

Nodes are the generic tagged records built by the Reader (reader.py:21-41)
with the property bags machine.py reads.  The `function` node carries the
`slurpy`/`quoting`/`naked` flags that machine.py:444-468 reads
(`node.slurpy`, `node.quoting`, `node.naked`); note that the snapshot's
Reader (reader.py:505-522) does not set these properties, so nodes are
modelled with the fields the machine expects.  `path` nodes store their
parent as a plain string, exactly as the Reader builds them
(reader.py:288, 346-348, 369-373).  `request` is the node tag that
machine.py:650-654 handles. -/

mutual

inductive RyNode where
  | number (value : String)
  | str (value : String)
  | vector (items : List RyNode)
  | builtinN (name : String)
  | path (parent : String) (route : List String)
  | request (name : String)
  | call (callee : RyNode) (args : List RyNode)
  | assign (pat : RyPattern) (value : RyNode)
  | function (name : String) (params : RyPatternList) (body : List RyNode)
             (slurpy : Bool) (quoting : Bool) (naked : Bool)
  | ifN (cond : RyNode) (correct : List RyNode) (other : List RyNode)
  | casesN (head : RyNode) (arms : List RyCase)
  | ret (value : RyNode)
  | expectN (guard : RyNode)

inductive RyCase where
  | matchCase (cond : RyPattern) (body : List RyNode)
  | valueCase (cond : RyNode) (body : List RyNode)

inductive RyPattern where
  | pIdentifier (name : String)
  | pCompare (value : RyNode)
  | pGuard (param : String) (guard : RyNode)
  | pExtract (obj : String) (fields : RyPatternList)
  | pUnpack (members : RyPatternList)
  | pDiscard
  | pNamedMulti (name : String)
  | pNamedMany (name : String)
  | pDiscardMulti
  | pDiscardMany

inductive RyPatternList where
  | nil
  | cons (head : RyPattern) (tail : RyPatternList)

end

/-- Length of a pattern list (`len(pattern.members)` etc.). -/
def RyPatternList.length : RyPatternList → Nat
  | .nil => 0
  | .cons _ tl => tl.length + 1

/-- Conversion of a pattern list to an ordinary list. -/
def RyPatternList.toList : RyPatternList → List RyPattern
  | .nil => []
  | .cons hd tl => hd :: tl.toList

/-- Conversion of an ordinary list into a pattern list. -/
def RyPatternList.ofL : List RyPattern → RyPatternList
  | [] => .nil
  | p :: rest => .cons p (RyPatternList.ofL rest)

theorem RyPatternList.patsToList_ofL (l : List RyPattern) :
    (RyPatternList.ofL l).toList = l := by
  induction l with
  | nil => rfl
  | cons p rest ih => simp [RyPatternList.ofL, RyPatternList.toList, ih]

theorem RyPatternList.patsLength_eq : ∀ l : RyPatternList, l.length = l.toList.length
  | .nil => rfl
  | .cons hd tl => by
      simp [RyPatternList.length, RyPatternList.toList, RyPatternList.patsLength_eq tl]

/-! ### Pattern signatures

`RyPriority` (machine.py:241-253) and `_prioritize` (machine.py:269-291). -/

/-- Signature constants (machine.py:241-253, class RyPriority). -/
def RyPriority.compare : Nat := 2 ^ 24
def RyPriority.guard : Nat := 2 ^ 21
def RyPriority.extract : Nat := 2 ^ 18
def RyPriority.unpack : Nat := 2 ^ 15
def RyPriority.identifier : Nat := 2 ^ 12
def RyPriority.namedGroup : Nat := 2 ^ 9
def RyPriority.discardGroup : Nat := 2 ^ 6
def RyPriority.slurpy : Nat := 2 ^ 3
def RyPriority.unreachable : Nat := 0

mutual

/-- Signature of a single pattern (`_prioritize`, machine.py:269-291, the
non-list branches). -/
def prioritize : RyPattern → Nat
  | .pCompare _ => RyPriority.compare
  | .pGuard _ _ => RyPriority.guard
  | .pExtract _ fields =>
      (RyPriority.extract + prioritizeL fields) * (fields.length + 1)
  | .pUnpack members =>
      (RyPriority.unpack + prioritizeL members) * (members.length + 1)
  | .pIdentifier _ => RyPriority.identifier
  | .pDiscard => RyPriority.identifier
  | .pNamedMulti _ => RyPriority.namedGroup
  | .pNamedMany _ => RyPriority.namedGroup
  | .pDiscardMulti => RyPriority.discardGroup
  | .pDiscardMany => RyPriority.discardGroup

/-- Signature of a pattern list: the sum of the members' signatures
(`_prioritize`, machine.py:274-275, the `type(pattern) is list` branch). -/
def prioritizeL : RyPatternList → Nat
  | .nil => 0
  | .cons p rest => prioritize p + prioritizeL rest

end

theorem prioritizeL_eq_sum : ∀ l : RyPatternList,
    prioritizeL l = (l.toList.map prioritize).sum
  | .nil => rfl
  | .cons hd tl => by
      simp [prioritizeL, RyPatternList.toList, prioritizeL_eq_sum tl]

/-! ### Stable descending sort

Python's `list.sort(key=k, reverse=True)` (used at machine.py:72 and
machine.py:421-424) is a stable sort into descending key order.  It is
modelled by a stable insertion sort: an element is inserted after every
already-placed element whose key is at least as large, which reproduces
both the descending order and the stability of the source's sort. -/

/-- Insert `x` into a descending-sorted list, after all elements with a
strictly larger or equal key. -/
def insertDesc (key : α → Nat) (x : α) : List α → List α
  | [] => [x]
  | y :: ys => if key x < key y then y :: insertDesc key x ys else x :: y :: ys

/-- Stable sort into descending key order. -/
def stableSortDesc (key : α → Nat) : List α → List α
  | [] => []
  | x :: xs => insertDesc key x (stableSortDesc key xs)

theorem sorted_insertDesc (key : α → Nat) (x : α) (l : List α)
    (h : l.Sorted (fun a b => key b ≤ key a)) :
    (insertDesc key x l).Sorted (fun a b => key b ≤ key a) := by
  induction l with
  | nil => simp [insertDesc]
  | cons y ys ih =>
      rw [List.sorted_cons] at h
      by_cases hxy : key x < key y
      · simp only [insertDesc, if_pos hxy]
        rw [List.sorted_cons]
        refine ⟨?_, ih h.2⟩
        intro b hb
        -- every element of insertDesc key x ys is x or an element of ys
        have hmem : b = x ∨ b ∈ ys := by
          clear ih h
          induction ys with
          | nil => simpa [insertDesc] using hb
          | cons z zs ihz =>
              by_cases hxz : key x < key z
              · simp only [insertDesc, if_pos hxz, List.mem_cons] at hb
                rcases hb with rfl | hb
                · right; simp
                · rcases ihz hb with rfl | hh
                  · left; rfl
                  · right; simp [hh]
              · simp only [insertDesc, if_neg hxz, List.mem_cons] at hb
                rcases hb with rfl | hb | hb
                · left; rfl
                · right; simp [hb]
                · right; simp [hb]
        rcases hmem with rfl | hmem
        · exact Nat.le_of_lt hxy
        · exact h.1 b hmem
      · simp only [insertDesc, if_neg hxy]
        rw [List.sorted_cons]
        refine ⟨?_, List.sorted_cons.mpr h⟩
        intro b hb
        rcases List.mem_cons.mp hb with rfl | hb
        · exact Nat.le_of_not_lt hxy
        · exact le_trans (h.1 b hb) (Nat.le_of_not_lt hxy)

theorem sorted_stableSortDesc (key : α → Nat) (l : List α) :
    (stableSortDesc key l).Sorted (fun a b => key b ≤ key a) := by
  induction l with
  | nil => simp [stableSortDesc]
  | cons x xs ih => exact sorted_insertDesc key x _ ih

/-! ### Function records and variation bundles

`RyFunction` (machine.py:78-91) and `RyVariations` (machine.py:56-72).
The captured state (`function.state`) is modelled by a store reference,
and the raw header text that `RyFunction.dump` (machine.py:103-117)
reconstructs from the source file via `linecache` is not modelled (it is
only interpolated into diagnostic messages). -/

structure RyFunc where
  name : String
  priority : Nat
  params : RyPatternList
  body : List RyNode
  stateRef : Nat

/-- Arity of a function record: `self.arity = len(params)`
(machine.py:89). -/
def RyFunc.arity (f : RyFunc) : Nat := f.params.length

structure RyVars where
  name : String
  quoting : Bool
  naked : Bool
  variations : List RyFunc

/-- `RyVariations.add` (machine.py:69-72): append the new variation, then
re-sort all variations by priority, descending, with Python's stable
sort. -/
def RyVars.add (vars : List RyFunc) (f : RyFunc) : List RyFunc :=
  stableSortDesc RyFunc.priority (vars ++ [f])

/-! ### Case-arm ordering

The sort performed on entry to the `Cases` branch (machine.py:419-424):
`ValueCase` arms get the fixed key `2**32`; `MatchCase` arms get their
pattern's signature. -/

/-- Sort key of a case arm (machine.py:422-423, the `key` lambda). -/
def caseKey : RyCase → Nat
  | .valueCase _ _ => 2 ^ 32
  | .matchCase cond _ => prioritize cond

/-- The arm sort performed by the `Cases` branch (machine.py:421-424). -/
def sortCases (arms : List RyCase) : List RyCase :=
  stableSortDesc caseKey arms

/-! ### Runtime values

The value classes of machine.py:38-219.  `_Box` subclasses carry a
Python payload in `.value`; raw host callables (which Master stores
directly in the environment under `#:`-keys, master.py:28-33) and the
remaining `HasType` classes are separate variants.  Environments are
association lists; `RyFunc.stateRef` indexes a store of environments,
modelling Python's shared, heap-allocated state dictionaries. -/

mutual

inductive RyVal where
  | num (value : Rat)
  | str (value : String)
  | bool (value : Bool)
  | vec (items : RyValList)
  | nothing
  | typeT (value : String)
  | builtinB (value : RyVal)
  | pyCallable (id : Nat)
  | variationsV (value : RyVars)
  | objectV (name : String) (props : RyPatternList) (block : List RyNode) (stateRef : Nat)
  | routeable (name : String) (env : RyEnvL) (extractable : RyValList)
  | excerpt (env : RyEnvL) (node : RyNode)

inductive RyValList where
  | nil
  | cons (head : RyVal) (tail : RyValList)

inductive RyEnvL where
  | nil
  | cons (key : String) (value : RyVal) (tail : RyEnvL)

end

def RyValList.length : RyValList → Nat
  | .nil => 0
  | .cons _ tl => tl.length + 1

def RyValList.toList : RyValList → List RyVal
  | .nil => []
  | .cons hd tl => hd :: tl.toList

def RyValList.ofL : List RyVal → RyValList
  | [] => .nil
  | v :: rest => .cons v (RyValList.ofL rest)

theorem RyValList.valsToList_ofL (l : List RyVal) :
    (RyValList.ofL l).toList = l := by
  induction l with
  | nil => rfl
  | cons v rest ih => simp [RyValList.ofL, RyValList.toList, ih]

theorem RyValList.valsLength_eq : ∀ l : RyValList, l.length = l.toList.length
  | .nil => rfl
  | .cons hd tl => by
      simp [RyValList.length, RyValList.toList, RyValList.valsLength_eq tl]

/-- The `type` tag carried by every runtime value (the `type` class
attribute of each value class in machine.py). -/
def RyVal.typeTag : RyVal → String
  | .num _ => "num"
  | .str _ => "str"
  | .bool _ => "bool"
  | .vec _ => "vec"
  | .nothing => "nothing"
  | .typeT _ => "type"
  | .builtinB _ => "builtin"
  | .pyCallable _ => "callable"
  | .variationsV _ => "variations"
  | .objectV _ _ _ _ => "object"
  | .routeable _ _ _ => "routeable"
  | .excerpt _ _ => "excerpt"

/-- Does the value belong to a `_Box` subclass (machine.py:38-46; the
boxed classes are RyTypeType, RyBool, RyVec, RyNum, RyStr, RyBuiltin)? -/
def RyVal.isBoxV : RyVal → Bool
  | .num _ | .str _ | .bool _ | .vec _ | .typeT _ | .builtinB _ => true
  | _ => false

def RyVal.isBoolV : RyVal → Bool
  | .bool _ => true
  | _ => false

/-! ### Structural equality

`_equals` (machine.py:297-310).  The payload comparisons use Python's
`==` on the boxed payloads; `PyV` represents the payloads and `pyEq`
models Python equality on them (Python booleans compare equal to the
numbers 0/1; two distinct `HasType` objects inside list payloads compare
by identity, so only empty list payloads compare equal). -/

inductive PyV where
  | rat (q : Rat)
  | pstr (s : String)
  | pbool (b : Bool)
  | plist (xs : RyValList)
  | pcallable (id : Nat)
  | pother

/-- The Python object inside an `RyBuiltin` box: a host callable when
the box wraps one, an opaque object otherwise. -/
def innerPy : RyVal → PyV
  | .pyCallable i => .pcallable i
  | _ => .pother

/-- The Python object found in a box's `.value` slot. -/
def pyValOf : RyVal → PyV
  | .num q => .rat q
  | .str s => .pstr s
  | .bool b => .pbool b
  | .vec xs => .plist xs
  | .typeT s => .pstr s
  | .builtinB v => innerPy v
  | _ => .pother

/-- Python `==` on box payloads. -/
def pyEq : PyV → PyV → Bool
  | .rat a, .rat b => a == b
  | .pstr a, .pstr b => a == b
  | .pbool a, .pbool b => a == b
  | .pbool b, .rat q => (if b then (1 : Rat) else 0) == q
  | .rat q, .pbool b => q == (if b then (1 : Rat) else 0)
  | .plist .nil, .plist .nil => true
  | .plist _, .plist _ => false
  | .pcallable i, .pcallable j => i == j
  | _, _ => false

/-- Python `v in ('', [])` on a box payload (machine.py:308). -/
def pyEmptyish (p : PyV) : Bool :=
  pyEq p (.pstr "") || pyEq p (.plist .nil)

mutual

/-- `_equals` (machine.py:297-310).  Both sides must be boxes
(machine.py:298); if either side is a boolean the payloads compare by
identity (`is`, machine.py:301-303), which across variants is always
false and between booleans is value equality; two vectors compare by
length and recursive element equality (machine.py:304-307); every other
box pair compares by the payload clause of machine.py:308: equal when
both payloads are empty-ish (`in ('', [])`) or Python-equal.  The
isinstance chain of the source maps onto the constructor cases. -/
def equals : RyVal → RyVal → Bool
  | .bool a, .bool b => a == b
  | .bool _, _ => false
  | _, .bool _ => false
  | .vec xs, .vec ys => if xs.length == ys.length then equalsL xs ys else false
  | l, r =>
      if l.isBoxV && r.isBoxV then
        (pyEmptyish (pyValOf l) && pyEmptyish (pyValOf r))
          || pyEq (pyValOf l) (pyValOf r)
      else false

/-- Pairwise recursive equality of vector elements
(machine.py:306, `all(_equals(litem, ritem) for ...)`). -/
def equalsL : RyValList → RyValList → Bool
  | .nil, _ => true
  | .cons _ _, .nil => true
  | .cons x xs, .cons y ys => equals x y && equalsL xs ys

end

/-! ### Environments and the state store

`RyState` (machine.py:222-238) carries filename, reader, line and the
environment dictionary; only the environment matters to the claims, so a
state is modelled by its environment.  Python states are heap-allocated
and shared (a function's captured `state` is a dictionary that other
values may alias); captured states therefore live in a store of
environments indexed by `RyFunc.stateRef`, and `state.copy()` is
modelled by reading the stored environment (the copy of an immutable
value is itself). -/

def RyEnvL.lookup : RyEnvL → String → Option RyVal
  | .nil, _ => none
  | .cons k v tl, key => if k == key then some v else tl.lookup key

/-- Python `dict` assignment: replace an existing binding in place or
append a new one. -/
def RyEnvL.set : RyEnvL → String → RyVal → RyEnvL
  | .nil, key, v => .cons key v .nil
  | .cons k w tl, key, v =>
      if k == key then .cons k v tl else .cons k w (tl.set key v)

/-- The store of captured states. -/
abbrev Store := List RyEnvL

def Store.getRef (store : Store) (i : Nat) : RyEnvL :=
  List.getD store i .nil

/-! ### Value display

Approximates the `__repr__` methods of the value classes
(machine.py:52-219).  `RyNum.__repr__` divides through a host float for
display and `RyExcerpt`/`RyFunction` reprs quote source text recovered
via `linecache`; those host-specific renderings are approximated
(rationals with denominator 1 print exactly as in the source; other
shapes only feed diagnostic messages that no claim inspects). -/

mutual

def ryRepr : RyVal → String
  | .num q => if q.den == 1 then toString q.num
              else toString q.num ++ "/" ++ toString q.den
  | .str s => "\"" ++ s ++ "\""
  | .bool b => if b then "true" else "false"
  | .vec xs => "[" ++ ryReprL xs ++ "]"
  | .nothing => "[nothing]"
  | .typeT v => "[type " ++ v ++ "]"
  | .builtinB _ => "[builtin]"
  | .pyCallable _ => "<callable>"
  | .variationsV vs =>
      "[function \"" ++ vs.name ++ "\" with "
        ++ toString vs.variations.length ++ " variation(s)]"
  | .objectV name _ _ _ => "[object " ++ name ++ "]"
  | .routeable name _ _ => "[routeable \"" ++ name ++ "\"]"
  | .excerpt _ _ => "[excerpt]"

def ryReprL : RyValList → String
  | .nil => ""
  | .cons v .nil => ryRepr v
  | .cons v tl => ryRepr v ++ " " ++ ryReprL tl

end

/-! ### Number literal evaluation

The `Number` branch (machine.py:663-671): hex/octal/binary literals go
through Python `int(value, base)`, everything else through
`Fraction(value)`.  Malformed strings raise an uncaught `ValueError`. -/

def digitValIn? (base : Nat) (c : Char) : Option Nat :=
  let v :=
    if c.isDigit then some (c.toNat - 48)
    else if c ≥ Char.ofNat 97 && c ≤ Char.ofNat 102 then some (c.toNat - 87)
    else if c ≥ Char.ofNat 65 && c ≤ Char.ofNat 70 then some (c.toNat - 55)
    else none
  match v with
  | some d => if d < base then some d else none
  | none => none

def digitsToNat? (base : Nat) : List Char → Option Nat → Option Nat
  | [], acc => acc
  | c :: rest, acc =>
      match digitValIn? base c, acc with
      | some d, some n => digitsToNat? base rest (some (n * base + d))
      | some d, none => digitsToNat? base rest (some d)
      | none, _ => none

/-- Python `int(s, base)` on the literal shapes the lexer produces:
an optional matching `0x`/`0o`/`0b` prefix followed by digits. -/
def pyIntOfBase (base : Nat) (s : String) : Option Nat :=
  let cs := s.toList
  let cs :=
    match cs with
    | '0' :: c :: rest =>
        if (base == 16 && (c == 'x' || c == 'X'))
            || (base == 8 && (c == 'o' || c == 'O'))
            || (base == 2 && (c == 'b' || c == 'B')) then rest else cs
    | _ => cs
  digitsToNat? base cs none

/-- Python `Fraction(s)` on decimal literal strings: digits with an
optional single decimal point. -/
def parseDecFrac (s : String) : Option Rat :=
  let cs := s.toList
  let intPart := cs.takeWhile (fun c => c != '.')
  let rest := cs.dropWhile (fun c => c != '.')
  match rest with
  | [] =>
      (digitsToNat? 10 intPart none).map (fun n => (n : Rat))
  | _ :: fracPart =>
      if fracPart.any (fun c => c == '.') then none
      else
        match digitsToNat? 10 (intPart ++ fracPart) none with
        | none => none
        | some n => some ((n : Rat) / ((10 : Rat) ^ fracPart.length))

/-! ### String interpolation and escape decoding

The `String` branch (machine.py:672-680): first every `$name` is
substituted via `re.sub` with the binding's text (`.value` for strings,
the repr otherwise; missing bindings are fatal), then the result is
escape-decoded.  The regex name shape is `[a-zA-Z][a-zA-Z0-9_-]*` not
ending in `-`, with an optional trailing `?`.  The source decodes with
Python's `unicode-escape` codec; the reader's string lexeme only admits
the escapes `\n \r \t \v \\ \$ \" \' \0` (reader.py:185), of which
`unicode-escape` maps all but `\$` (an unknown escape, kept verbatim). -/

def identCharI (c : Char) : Bool :=
  c.isAlphanum || c == '_' || c == '-'

def takeIdentRun : List Char → (List Char × List Char)
  | [] => ([], [])
  | c :: rest =>
      if identCharI c then
        let (run, rest') := takeIdentRun rest
        (c :: run, rest')
      else ([], c :: rest)

/-- Drop the trailing dashes a `(?<!-)` lookbehind would backtrack over;
returns the matched part and the number of characters given back. -/
def stripTrailingDashes (run : List Char) : List Char × Nat :=
  let rev := run.reverse
  let dashes := rev.takeWhile (fun c => c == '-')
  ((rev.drop dashes.length).reverse, dashes.length)

def interpGo (env : RyEnvL) : Nat → List Char → Except String (List Char)
  | _, [] => .ok []
  | 0, _ => .ok []
  | gas + 1, '$' :: c :: rest =>
      if c.isAlpha then
        let (run, rest') := takeIdentRun (c :: rest)
        let (name, given) := stripTrailingDashes run
        let back := run.drop name.length
        let (name, afterRest) :=
          if given == 0 then
            match rest' with
            | '?' :: r2 => (name ++ ['?'], r2)
            | _ => (name, rest')
          else (name, back ++ rest')
        let nameS := String.mk name
        match env.lookup nameS with
        | none =>
            .error ("interpolation: variable \"" ++ nameS ++ "\" is not defined")
        | some v =>
            let text := match v with | .str s => s | other => ryRepr other
            match interpGo env gas afterRest with
            | .ok tail => .ok (text.toList ++ tail)
            | .error e => .error e
      else
        match interpGo env gas (c :: rest) with
        | .ok tail => .ok ('$' :: tail)
        | .error e => .error e
  | gas + 1, c :: rest =>
      match interpGo env gas rest with
      | .ok tail => .ok (c :: tail)
      | .error e => .error e

/-- Interpolate a string literal's text against the environment
(machine.py:673-679).  The scan consumes at least one character per
step, so a gas of the character count covers the whole scan. -/
def interpolate (env : RyEnvL) (s : String) : Except String (List Char) :=
  interpGo env (s.toList.length + 1) s.toList

def decodeEscapes : List Char → List Char
  | [] => []
  | '\\' :: c :: rest =>
      if c == 'n' then '\n' :: decodeEscapes rest
      else if c == 'r' then '\r' :: decodeEscapes rest
      else if c == 't' then '\t' :: decodeEscapes rest
      else if c == 'v' then Char.ofNat 11 :: decodeEscapes rest
      else if c == '\\' then '\\' :: decodeEscapes rest
      else if c == '"' then '"' :: decodeEscapes rest
      else if c == Char.ofNat 39 then Char.ofNat 39 :: decodeEscapes rest
      else if c == '0' then Char.ofNat 0 :: decodeEscapes rest
      else '\\' :: c :: decodeEscapes rest
  | c :: rest => c :: decodeEscapes rest

/-! ### Python sequence-slicing helpers

Model Python's slicing and indexing with possibly negative offsets,
used by the unpack engine (machine.py:359-399). -/

def pyDropFrom (l : List α) (k : Int) : List α :=
  if k < 0 then l.drop ((l.length : Int) + k).toNat else l.drop k.toNat

def pyTakeTo (l : List α) (k : Int) : List α :=
  if k < 0 then l.take ((l.length : Int) + k).toNat else l.take k.toNat

def pyIndex (l : List α) (k : Int) : Option α :=
  if k < 0 then
    if (l.length : Int) + k < 0 then none else l.get? ((l.length : Int) + k).toNat
  else l.get? k.toNat

/-! ### Evaluator result types

`_visit_node` returns a value, mutates the threaded state, and may raise
`_ReturnException` (machine.py:31-35), `_DeathError` (machine.py:20-28),
an arbitrary Python exception (uncaught slips like the string-parent
visit of the `Path` branch) or `RecursionError`.  Fuel exhaustion
(`noFuel`) is an artifact of the shallow embedding that bounds the TCO
while-loop; `overflow` models `RecursionError` via the explicit stack
budget. -/

inductive EvalRes where
  | ok (v : RyVal) (env : RyEnvL) (store : Store)
  | retEx (v : RyVal) (store : Store)
  | death (msg : String)
  | pyErr (msg : String)
  | overflow
  | noFuel

inductive SeqRes where
  | ok (vs : List RyVal) (env : RyEnvL) (store : Store)
  | retEx (v : RyVal) (store : Store)
  | death (msg : String)
  | pyErr (msg : String)
  | overflow
  | noFuel

inductive PatRes where
  | res (status : Bool) (payload : String) (env : RyEnvL) (store : Store)
  | retEx (v : RyVal) (store : Store)
  | death (msg : String)
  | pyErr (msg : String)
  | overflow
  | noFuel

inductive DispRes where
  | found (f : RyFunc) (env : RyEnvL) (store : Store)
  | nomatch (store : Store)
  | retEx (v : RyVal) (store : Store)
  | death (msg : String)
  | pyErr (msg : String)
  | overflow
  | noFuel

inductive ArmRes where
  | matched (body : List RyNode) (env : RyEnvL) (store : Store)
  | exhausted (env : RyEnvL) (store : Store)
  | retEx (v : RyVal) (store : Store)
  | death (msg : String)
  | pyErr (msg : String)
  | overflow
  | noFuel

inductive DelimRes where
  | found (captured : Nat) (env : RyEnvL) (store : Store)
  | nohit (env : RyEnvL) (store : Store)
  | fail (msg : String) (env : RyEnvL) (store : Store)
  | retEx (v : RyVal) (store : Store)
  | death (msg : String)
  | pyErr (msg : String)
  | overflow
  | noFuel

/-- Host-call oracle: the behavior of a raw Python callable applied by
the `RyBuiltin` branch (machine.py:613-619) is external to the
interpreter and is a parameter of the model. -/
inductive HostRes where
  | val (v : RyVal)
  | dieH (msg : String)
  | exn (msg : String)

def HostModel := Nat → List RyVal → HostRes

/-- Character containment in a string (Python `c in s`), computed over
the character list. -/
def strHasChar (s : String) (c : Char) : Bool :=
  s.toList.any (fun a => a == c)

/-- Does the string start with the given character
(Python `s.startswith(c)`)? -/
def startsWithChar (s : String) (c : Char) : Bool :=
  match s.toList with
  | [] => false
  | a :: _ => a == c

/-! ### Small helpers for the evaluator -/


/-- Split a node list into its leading nodes and its last node
(`body[:-1]` and `body[-1]`). -/
def splitBody : List RyNode → Option (List RyNode × RyNode)
  | [] => none
  | [x] => some ([], x)
  | x :: y :: rest =>
      match splitBody (y :: rest) with
      | some (fore, last) => some (x :: fore, last)
      | none => none

/-- `isinstance(cond, RyBool) and cond.value is False` (machine.py:471). -/
def isFalseBool : RyVal → Bool
  | .bool false => true
  | _ => false

/-- Member types counted by `multis` (machine.py:351). -/
def isMultiM : RyPattern → Bool
  | .pDiscardMulti | .pNamedMulti _ => true
  | _ => false

/-- Member types counted by `manys` (machine.py:352). -/
def isManyM : RyPattern → Bool
  | .pDiscardMany | .pNamedMany _ => true
  | _ => false

/-- `'Named' in member.type` (machine.py:366). -/
def isNamedG : RyPattern → Bool
  | .pNamedMulti _ | .pNamedMany _ => true
  | _ => false

/-- `member.type.startswith(('P_DiscardM', 'P_NamedM'))` (machine.py:370). -/
def isGroupM : RyPattern → Bool
  | .pDiscardMulti | .pDiscardMany | .pNamedMulti _ | .pNamedMany _ => true
  | _ => false

/-- `members[1].type in ('P_Compare', 'P_Guard', 'P_Extract')`
(machine.py:374). -/
def isDelimiterP : RyPattern → Bool
  | .pCompare _ | .pGuard _ _ | .pExtract _ _ => true
  | _ => false

def joinStrVals (l : List RyVal) : String :=
  String.join (l.map (fun v => match v with | .str s => s | _ => ""))

/-- `(RyStr if is_str else RyVec)(values[:captured])` (machine.py:390);
for string unpacks every element is a one-character string. -/
def mkBind (isStr : Bool) (vals : List RyVal) : RyVal :=
  if isStr then .str (joinStrVals vals) else .vec (.ofL vals)

/-- Rebuild the unpacked value for diagnostic messages (`{value}`). -/
def reconstructVal (isStr : Bool) (full : List RyVal) : RyVal :=
  if isStr then .str (joinStrVals full) else .vec (.ofL full)

/-- Message of the dispatch failure (machine.py:595-599); the variation
headers that `RyFunction.dump` reads back from the source file via
`linecache` are abbreviated. -/
def mkNoMatchMsg (varc : Nat) (args : List RyVal) : String :=
  "of these variations:\n  <" ++ toString varc
    ++ " variation header(s)>\nnone matched the " ++ toString args.length
    ++ " argument(s) given: " ++ String.intercalate ", " (args.map ryRepr)

/-- Message of a failed special-form cast (machine.py:561). -/
def noSpecialMsg (t : String) (arg : RyVal) : String :=
  "no special-form \"" ++ t ++ "\" to convert " ++ ryRepr arg
    ++ " to " ++ ryRepr (.typeT t) ++ ")"

/-! ### The evaluator

`_visit_node` (machine.py:408-682) and `_visit_pattern`
(machine.py:314-403), with the inline loops of the source broken out as
mutually recursive helpers:
  * `visitSeq` — the `type(node) in (list, tuple)` branch
    (machine.py:412-416), which converts a nested `RecursionError` into
    the fatal "recursion error";
  * `armsGo` — the arm loop of `Cases` (machine.py:425-440);
  * `callNormal` — the `Call` branch after the special-form check
    (machine.py:538-621);
  * `dispatch` / `matchParams` — the variation loop (machine.py:574-594),
    whose index bookkeeping amounts to first-match-else-fail;
  * `unpackGo` / `scanDelim` — the unpack loop (machine.py:359-399).

`stk` models Python's bounded call stack: each Python-level recursive
call runs with one less frame, while the TCO `while True` loop
(machine.py:411) continues in the same frame, so the `Cases`/`If`/call
continuations keep the frame budget.  `fuel` is the structural
termination measure of the embedding; it decreases on every recursive
call, so it bounds loop iterations plus call depth, and exhaustion is
reported as `noFuel` (never conflated with the source's errors). -/

mutual

def visit (host : HostModel) (store : Store) (stk fuel : Nat) (env : RyEnvL)
    (node : RyNode) : EvalRes :=
  match stk, fuel with
  | 0, _ => .overflow
  | _, 0 => .noFuel
  | sk + 1, f + 1 =>
    match node with
    | .number value =>
        if strHasChar value 'x' then
          match pyIntOfBase 16 value with
          | some n => .ok (.num n) env store
          | none => .pyErr "ValueError: invalid literal for int() with base 16"
        else if strHasChar value 'o' then
          match pyIntOfBase 8 value with
          | some n => .ok (.num n) env store
          | none => .pyErr "ValueError: invalid literal for int() with base 8"
        else if strHasChar value 'b' then
          match pyIntOfBase 2 value with
          | some n => .ok (.num n) env store
          | none => .pyErr "ValueError: invalid literal for int() with base 2"
        else
          match parseDecFrac value with
          | some q => .ok (.num q) env store
          | none => .pyErr "ValueError: invalid literal for Fraction"
    | .str value =>
        match interpolate env value with
        | .error m => .death m
        | .ok chars => .ok (.str (String.mk (decodeEscapes chars))) env store
    | .vector items =>
        match visitSeq host store sk f env items with
        | .ok vs env' store' => .ok (.vec (.ofL vs)) env' store'
        | .retEx v s => .retEx v s
        | .death m => .death m
        | .pyErr m => .pyErr m
        | .overflow => .overflow
        | .noFuel => .noFuel
    | .builtinN name =>
        match env.lookup ("#:" ++ name) with
        | some v => .ok (.builtinB v) env store
        | none => .death ("builtin \"" ++ name ++ "\" not found")
    | .path _ _ =>
        -- machine.py:644 recursively visits `node.parent`, which the
        -- Reader stores as a plain string (reader.py:288); the non-list
        -- branch of `_visit_node` immediately reads `node.line` on it
        -- (machine.py:418), raising an uncaught AttributeError.
        .pyErr "AttributeError: str object has no attribute line"
    | .request name =>
        match env.lookup name with
        | some v => .ok v env store
        | none => .death ("\"" ++ name ++ "\" is not defined")
    | .expectN guardN =>
        match visit host store sk f env guardN with
        | .ok g env' store' =>
            if isFalseBool g then .death "expectation false"
            else .ok .nothing env' store'
        | .retEx v s => .retEx v s
        | .death m => .death m
        | .pyErr m => .pyErr m
        | .overflow => .overflow
        | .noFuel => .noFuel
    | .ret valueN =>
        match visit host store sk f env valueN with
        | .ok v _ store' => .retEx v store'
        | .retEx v s => .retEx v s
        | .death m => .death m
        | .pyErr m => .pyErr m
        | .overflow => .overflow
        | .noFuel => .noFuel
    | .assign pat valueN =>
        match visit host store sk f env valueN with
        | .ok v env₁ store₁ =>
            match visitPattern host store₁ sk f env₁ pat v with
            | .res true _ env₂ store₂ => .ok v env₂ store₂
            | .res false payload _ _ => .death ("match error: " ++ payload)
            | .retEx v' s => .retEx v' s
            | .death m => .death m
            | .pyErr m => .pyErr m
            | .overflow => .overflow
            | .noFuel => .noFuel
        | .retEx v s => .retEx v s
        | .death m => .death m
        | .pyErr m => .pyErr m
        | .overflow => .overflow
        | .noFuel => .noFuel
    | .function name params body slurpy quoting naked =>
        -- machine.py:444-468
        let priority := if slurpy then RyPriority.slurpy else prioritizeL params
        let arity := params.length
        if startsWithChar name (Char.ofNat 39) && !(arity == 1 || arity == 2) then
          .death ("expected either a prefix (arity = 1) or infix (arity = 2), got arity = "
            ++ toString arity)
        else
          -- `function.state = function.state.copy()` (machine.py:465-467)
          -- captures the post-install environment; the captured state is
          -- allocated at the end of the store.  (The source skips the
          -- copy for naked functions, aliasing the live state; the model
          -- snapshots it either way, which no claim exercises.)
          let func : RyFunc := ⟨name, priority, params, body, store.length⟩
          match env.lookup name with
          | some (.variationsV vs) =>
              if vs.quoting != quoting then
                .death "expected variation `<function>` to be quoting"
              else if vs.naked != naked then
                .death "expected variation `<function>` to be naked"
              else
                let vs' := { vs with variations := RyVars.add vs.variations func }
                let env' := env.set name (.variationsV vs')
                .ok (.variationsV vs') env' (store ++ [env'])
          | _ =>
              let vs' : RyVars := ⟨name, quoting, naked, [func]⟩
              let env' := env.set name (.variationsV vs')
              .ok (.variationsV vs') env' (store ++ [env'])
    | .ifN condN correct other =>
        -- machine.py:469-483
        match visit host store sk f env condN with
        | .ok condv env₁ store₁ =>
            if isFalseBool condv then
              match splitBody other with
              | none => .ok (.bool false) env₁ store₁
              | some (fore, last) =>
                  match visitSeq host store₁ sk f env₁ fore with
                  | .ok _ env₂ store₂ => visit host store₂ (sk + 1) f env₂ last
                  | .retEx v s => .retEx v s
                  | .death m => .death m
                  | .pyErr m => .pyErr m
                  | .overflow => .overflow
                  | .noFuel => .noFuel
            else
              match splitBody correct with
              | none => .ok (.bool true) env₁ store₁
              | some (fore, last) =>
                  match visitSeq host store₁ sk f env₁ fore with
                  | .ok _ env₂ store₂ => visit host store₂ (sk + 1) f env₂ last
                  | .retEx v s => .retEx v s
                  | .death m => .death m
                  | .pyErr m => .pyErr m
                  | .overflow => .overflow
                  | .noFuel => .noFuel
        | .retEx v s => .retEx v s
        | .death m => .death m
        | .pyErr m => .pyErr m
        | .overflow => .overflow
        | .noFuel => .noFuel
    | .casesN headN arms =>
        -- machine.py:419-443
        match visit host store sk f env headN with
        | .ok head env₁ store₁ =>
            match sortCases arms with
            | [] => .pyErr "NameError: name status is not defined"
            | a :: rest =>
                match armsGo host store₁ sk f env₁ head (a :: rest) with
                | .matched body env₂ store₂ =>
                    match splitBody body with
                    | none => .ok (.bool true) env₂ store₂
                    | some (fore, last) =>
                        match visitSeq host store₂ sk f env₂ fore with
                        | .ok _ env₃ store₃ => visit host store₃ (sk + 1) f env₃ last
                        | .retEx v s => .retEx v s
                        | .death m => .death m
                        | .pyErr m => .pyErr m
                        | .overflow => .overflow
                        | .noFuel => .noFuel
                | .exhausted env₂ store₂ => .ok (.bool false) env₂ store₂
                | .retEx v s => .retEx v s
                | .death m => .death m
                | .pyErr m => .pyErr m
                | .overflow => .overflow
                | .noFuel => .noFuel
        | .retEx v s => .retEx v s
        | .death m => .death m
        | .pyErr m => .pyErr m
        | .overflow => .overflow
        | .noFuel => .noFuel
    | .call calleeN args =>
        -- special forms (machine.py:529-537), then the normal call path
        match calleeN, args with
        | .request rname, [a0] =>
            if rname == "unquote" then
              match visit host store sk f env a0 with
              | .ok q env₁ store₁ =>
                  match q with
                  | .excerpt qenv qnode =>
                      match visit host store₁ sk f qenv qnode with
                      | .ok v _ store₂ => .ok v env₁ store₂
                      | .retEx v s => .retEx v s
                      | .death m => .death m
                      | .pyErr m => .pyErr m
                      | .overflow => .overflow
                      | .noFuel => .noFuel
                  | other => .death ("cannot unquote a non-excerpt value: " ++ ryRepr other)
              | .retEx v s => .retEx v s
              | .death m => .death m
              | .pyErr m => .pyErr m
              | .overflow => .overflow
              | .noFuel => .noFuel
            else if rname == "quote" then
              .ok (.excerpt env a0) env store
            else callNormal host store (sk + 1) f env calleeN args
        | _, _ => callNormal host store (sk + 1) f env calleeN args
termination_by structural fuel


/-- The `Call` branch after the special-form check (machine.py:538-621).
`stk` is the frame budget of the enclosing `_visit_node` frame. -/
def callNormal (host : HostModel) (store : Store) (stk fuel : Nat)
    (env : RyEnvL) (calleeN : RyNode) (args : List RyNode) : EvalRes :=
  match fuel with
  | 0 => .noFuel
  | f + 1 =>
    match visit host store (stk - 1) f env calleeN with
    | .ok callee env₁ store₁ =>
        match callee with
        | .typeT t =>
            if args.length == 1 then
              match visitSeq host store₁ (stk - 1) f env₁ args with
              | .ok argvs env₂ store₂ =>
                  match argvs with
                  | [arg] =>
                      if t == "num" then
                        match arg with
                        | .str s =>
                            match parseDecFrac s with
                            | some q => .ok (.num q) env₂ store₂
                            | none =>
                                .death ("was not able to convert to num: " ++ ryRepr arg)
                        | _ => .death (noSpecialMsg t arg)
                      else if t == "str" then
                        match arg with
                        | .num q => .ok (.str (ryRepr (.num q))) env₂ store₂
                        | _ => .death (noSpecialMsg t arg)
                      else if t == "vec" then
                        match arg with
                        | .str s =>
                            .ok (.vec (.ofL (s.toList.map
                              (fun c => RyVal.str (String.singleton c))))) env₂ store₂
                        | _ => .death (noSpecialMsg t arg)
                      else if t == "type" then
                        .ok (.typeT arg.typeTag) env₂ store₂
                      else .death (noSpecialMsg t arg)
                  | _ => .pyErr "IndexError: list index out of range"
              | .retEx v s => .retEx v s
              | .death m => .death m
              | .pyErr m => .pyErr m
              | .overflow => .overflow
              | .noFuel => .noFuel
            else
              -- with an argument count other than 1 the branch body falls
              -- through without returning, so the `while True` loop
              -- re-runs on the same node forever (machine.py:543-561)
              visit host store₁ stk f env₁ (.call calleeN args)
        | .variationsV vs =>
            let argsRes : SeqRes :=
              if vs.quoting then
                .ok (args.map (fun a => RyVal.excerpt env₁ a)) env₁ store₁
              else visitSeq host store₁ (stk - 1) f env₁ args
            match argsRes with
            | .ok argvs env₂ store₂ =>
                match dispatch host store₂ (stk - 1) f argvs vs.variations with
                | .nomatch store₃ =>
                    let _ := store₃
                    .death (mkNoMatchMsg vs.variations.length argvs)
                | .found fn capsEnv store₃ =>
                    match splitBody fn.body with
                    | none => .ok .nothing env₂ store₃
                    | some (fore, last) =>
                        match visitSeq host store₃ (stk - 1) f capsEnv fore with
                        | .retEx v store₄ => .ok v env₂ store₄
                        | .ok _ capsEnv₂ store₄ =>
                            let nextN := match last with | .ret rv => rv | other => other
                            match visit host store₄ stk f capsEnv₂ nextN with
                            | .ok v _ store₅ => .ok v env₂ store₅
                            | .retEx v s => .retEx v s
                            | .death m => .death m
                            | .pyErr m => .pyErr m
                            | .overflow => .overflow
                            | .noFuel => .noFuel
                        | .death m => .death m
                        | .pyErr m => .pyErr m
                        | .overflow => .overflow
                        | .noFuel => .noFuel
                | .retEx v s => .retEx v s
                | .death m => .death m
                | .pyErr m => .pyErr m
                | .overflow => .overflow
                | .noFuel => .noFuel
            | .retEx v s => .retEx v s
            | .death m => .death m
            | .pyErr m => .pyErr m
            | .overflow => .overflow
            | .noFuel => .noFuel
        | .builtinB inner =>
            -- machine.py:613-619: the whole application, argument
            -- evaluation included, runs inside a try that re-raises
            -- `_DeathError` and converts any other exception into the
            -- fatal "python exception"
            match visitSeq host store₁ (stk - 1) f env₁ args with
            | .ok argvs env₂ store₂ =>
                match inner with
                | .pyCallable i =>
                    match host i argvs with
                    | .val v => .ok v env₂ store₂
                    | .dieH m => .death m
                    | .exn m => .death ("python exception: " ++ m)
                | _ => .death "python exception: TypeError: object is not callable"
            | .retEx _ _ => .death "python exception: return outside wrapper"
            | .death m => .death m
            | .pyErr m => .death ("python exception: " ++ m)
            | .overflow => .death "python exception: maximum recursion depth exceeded"
            | .noFuel => .noFuel
        | other =>
            .death ("callee of type " ++ other.typeTag ++ " is not callable: "
              ++ ryRepr other)
    | .retEx v s => .retEx v s
    | .death m => .death m
    | .pyErr m => .pyErr m
    | .overflow => .overflow
    | .noFuel => .noFuel
termination_by structural fuel


/-- The `type(node) in (list, tuple)` branch of `_visit_node`
(machine.py:412-416): evaluate a node list element by element, turning a
`RecursionError` raised below into the fatal "recursion error". -/
def visitSeq (host : HostModel) (store : Store) (stk fuel : Nat) (env : RyEnvL) :
    List RyNode → SeqRes :=
  fun nodes =>
  match stk, fuel with
  | 0, _ => .overflow
  | _, 0 => .noFuel
  | sk + 1, f + 1 =>
    match nodes with
    | [] => .ok [] env store
    | n :: rest =>
        match visit host store sk f env n with
        | .overflow => .death "recursion error: recursion too deep :("
        | .ok v env' store' =>
            match visitSeq host store' (sk + 1) f env' rest with
            | .ok vs env'' store'' => .ok (v :: vs) env'' store''
            | .retEx v' s => .retEx v' s
            | .death m => .death m
            | .pyErr m => .pyErr m
            | .overflow => .overflow
            | .noFuel => .noFuel
        | .retEx v s => .retEx v s
        | .death m => .death m
        | .pyErr m => .pyErr m
        | .noFuel => .noFuel
termination_by structural fuel


/-- The arm loop of the `Cases` branch (machine.py:425-440).  A
`P_Discard` match-arm matches without running the pattern engine; a
failed arm keeps the environment mutations its pattern made; when the
last arm fails the loop falls out with a falsy status. -/
def armsGo (host : HostModel) (store : Store) (stk fuel : Nat) (env : RyEnvL)
    (head : RyVal) : List RyCase → ArmRes :=
  fun arms =>
  match fuel with
  | 0 => .noFuel
  | f + 1 =>
    match arms with
    | [] => .exhausted env store
    | arm :: rest =>
        match arm with
        | .matchCase cond body =>
            let stRes : PatRes :=
              match cond with
              | .pDiscard => .res true "" env store
              | _ => visitPattern host store stk f env cond head
            match stRes with
            | .res true _ env' store' => .matched body env' store'
            | .res false _ env' store' =>
                match rest with
                | [] => .exhausted env' store'
                | _ => armsGo host store' stk f env' head rest
            | .retEx v s => .retEx v s
            | .death m => .death m
            | .pyErr m => .pyErr m
            | .overflow => .overflow
            | .noFuel => .noFuel
        | .valueCase cond body =>
            match visit host store stk f env cond with
            | .ok cv env' store' =>
                if equals cv head then .matched body env' store'
                else
                  match rest with
                  | [] => .exhausted env' store'
                  | _ => armsGo host store' stk f env' head rest
            | .retEx v s => .retEx v s
            | .death m => .death m
            | .pyErr m => .pyErr m
            | .overflow => .overflow
            | .noFuel => .noFuel
termination_by structural fuel


/-- The variation loop of the normal call path (machine.py:574-594).
Each variation is tried against a fresh copy of its captured state; the
first fully matching variation wins; the `index == varc - 1`
bookkeeping of the source nets out to failing after the last variation.
An empty bundle would leave the loop's `status` unbound
(`RyVariations` never produces one). -/
def dispatch (host : HostModel) (store : Store) (stk fuel : Nat)
    (args : List RyVal) : List RyFunc → DispRes :=
  fun vars =>
  match fuel with
  | 0 => .noFuel
  | f + 1 =>
    match vars with
    | [] => .pyErr "NameError: name status is not defined"
    | fn :: rest =>
        let capsule := store.getRef fn.stateRef
        let tryRes : PatRes :=
          if fn.priority == RyPriority.slurpy then
            match fn.params.toList with
            | [] => .pyErr "IndexError: list index out of range"
            | p0 :: _ => visitPattern host store stk f capsule p0 (.vec (.ofL args))
          else if fn.arity == args.length then
            if fn.arity == 0 then .res true "" capsule store
            else matchParams host store stk f capsule fn.params.toList args
          else .res false "" capsule store
        match tryRes with
        | .res true _ env' store' => .found fn env' store'
        | .res false _ _ store' =>
            match rest with
            | [] => .nomatch store'
            | _ => dispatch host store' stk f args rest
        | .retEx v s => .retEx v s
        | .death m => .death m
        | .pyErr m => .pyErr m
        | .overflow => .overflow
        | .noFuel => .noFuel
termination_by structural fuel


/-- `for param, arg in zip(variation.params, args)` (machine.py:585-588). -/
def matchParams (host : HostModel) (store : Store) (stk fuel : Nat) (env : RyEnvL) :
    List RyPattern → List RyVal → PatRes :=
  fun ps args =>
  match fuel with
  | 0 => .noFuel
  | f + 1 =>
    match ps, args with
    | [], _ => .res true "" env store
    | _, [] => .res true "" env store
    | p :: ps', a :: args' =>
        match visitPattern host store stk f env p a with
        | .res true _ env' store' => matchParams host store' stk f env' ps' args'
        | .res false payload env' store' => .res false payload env' store'
        | .retEx v s => .retEx v s
        | .death m => .death m
        | .pyErr m => .pyErr m
        | .overflow => .overflow
        | .noFuel => .noFuel
termination_by structural fuel


/-- `_visit_pattern` (machine.py:314-403). -/
def visitPattern (host : HostModel) (store : Store) (stk fuel : Nat) (env : RyEnvL)
    (pat : RyPattern) (value : RyVal) : PatRes :=
  match stk, fuel with
  | 0, _ => .overflow
  | _, 0 => .noFuel
  | sk + 1, f + 1 =>
    match pat with
    | .pIdentifier name => .res true "" (env.set name value) store
    | .pCompare vnode =>
        match visit host store sk f env vnode with
        | .ok comparee env' store' =>
            if equals comparee value then .res true "" env' store'
            else
              .res false ("expected " ++ ryRepr comparee ++ ", found " ++ ryRepr value)
                env' store'
        | .retEx v s => .retEx v s
        | .death m => .death m
        | .pyErr m => .pyErr m
        | .overflow => .overflow
        | .noFuel => .noFuel
    | .pGuard param guardN =>
        let env₁ := env.set param value
        match visit host store sk f env₁ guardN with
        | .ok g env₂ store₂ =>
            match g with
            | .bool true => .res true "" env₂ store₂
            | _ =>
                .res false ("vetoed by the guard of \"" ++ param ++ "\"") env₂ store₂
        | .retEx v s => .retEx v s
        | .death m => .death m
        | .pyErr m => .pyErr m
        | .overflow => .overflow
        | .noFuel => .noFuel
    | .pExtract obj fields =>
        match env.lookup obj with
        | none => .death ("entity \"" ++ obj ++ "\" does not exist")
        | some o =>
            match o with
            | .objectV oname _ _ _ =>
                match value with
                | .routeable rname _ rextr =>
                    if oname != rname then
                      .res false ("bogus object: expected \"" ++ oname
                        ++ "\", got \"" ++ rname ++ "\"") env store
                    else extractGo host store sk f env rextr.toList fields.toList
                | other =>
                    .res false ("type " ++ other.typeTag ++ " is not an object")
                      env store
            | _ =>
                if equals o value then .res true "" env store
                else
                  .res false ("expected " ++ ryRepr o ++ ", found " ++ ryRepr value)
                    env store
    | .pUnpack members =>
        let mlist := members.toList
        match value with
        | .vec xs =>
            unpackStart host store sk f env false xs.toList mlist
        | .str s =>
            unpackStart host store sk f env true
              (s.toList.map (fun c => RyVal.str (String.singleton c))) mlist
        | other =>
            .res false ("right-hand side must be a vector or a string, got "
              ++ ryRepr other) env store
    | .pDiscard => .res true "" env store
    | .pNamedMulti _ => .res true "" env store
    | .pNamedMany _ => .res true "" env store
    | .pDiscardMulti => .res true "" env store
    | .pDiscardMany => .res true "" env store
termination_by structural fuel


/-- Zip-loop of object extraction (machine.py:341-344).  When a field
fails, the error f-string references the undefined name `prop`, raising
an uncaught NameError. -/
def extractGo (host : HostModel) (store : Store) (stk fuel : Nat) (env : RyEnvL) :
    List RyVal → List RyPattern → PatRes :=
  fun extr fields =>
  match fuel with
  | 0 => .noFuel
  | f + 1 =>
    match extr, fields with
    | [], _ => .res true "" env store
    | _, [] => .res true "" env store
    | e :: es, fld :: flds =>
        match visitPattern host store stk f env fld e with
        | .res true _ env' store' => extractGo host store' stk f env' es flds
        | .res false _ _ _ => .pyErr "NameError: name prop is not defined"
        | .retEx v s => .retEx v s
        | .death m => .death m
        | .pyErr m => .pyErr m
        | .overflow => .overflow
        | .noFuel => .noFuel
termination_by structural fuel


/-- Head of the unpack branch (machine.py:345-358): the vec/str check,
the length precheck, and the multi-capture delimiting check
(`(multis + manys) * 1.5 > len(members)` is exactly
`3 * (multis + manys) > 2 * len(members)`, the float product being
exact for these magnitudes). -/
def unpackStart (host : HostModel) (store : Store) (stk fuel : Nat) (env : RyEnvL)
    (isStr : Bool) (items : List RyVal) (mlist : List RyPattern) : PatRes :=
  match fuel with
  | 0 => .noFuel
  | f + 1 =>
    let multis := (mlist.filter isMultiM).length
    let manys := (mlist.filter isManyM).length
    let myself := if isStr then "string" else "vector"
    if mlist.length != items.length && (multis + manys) == 0 then
      .res false ("got pattern of length " ++ toString mlist.length ++ ", but "
        ++ myself ++ " is of length " ++ toString items.length ++ ": "
        ++ ryRepr (reconstructVal isStr items)) env store
    else if multis + manys > 2 && 3 * (multis + manys) > 2 * mlist.length then
      .death "several multi-item captures must be delimited"
    else unpackGo host store stk f env isStr items 0 0 mlist
termination_by structural fuel


/-- The unpack `while True` loop (machine.py:359-399).  `full` is the
item list of the unpacked value, `vOff`/`mOff` the source's offsets
(`vOff` may go negative through Python's slice arithmetic). -/
def unpackGo (host : HostModel) (store : Store) (stk fuel : Nat) (env : RyEnvL)
    (isStr : Bool) (full : List RyVal) (vOff : Int) (mOff : Nat) :
    List RyPattern → PatRes :=
  fun ms =>
  match fuel with
  | 0 => .noFuel
  | f + 1 =>
    match ms with
    | [] => .res true "" env store
    | member :: msRest =>
        let values := pyDropFrom full vOff
        let myself := if isStr then "string" else "vector"
        let multi := isMultiM member
        let named := isNamedG member
        let mname :=
          match member with
          | .pNamedMulti n => n
          | .pNamedMany n => n
          | _ => if multi then "<plus>" else "<star>"
        let captured : Int := (values.length : Int) - (msRest.length : Int)
        if isGroupM member then
          match msRest with
          | d :: msAfterD =>
              if isDelimiterP d then
                match scanDelim host store stk f env d mname myself
                    (ryRepr (reconstructVal isStr full)) 0 values with
                | .found cap env₁ store₁ =>
                    unpackFinGroup host stk f env₁ store₁ isStr full vOff mOff
                      values multi named mname (cap : Int) true msAfterD
                | .nohit env₁ store₁ =>
                    unpackFinGroup host stk f env₁ store₁ isStr full vOff mOff
                      values multi named mname captured false msRest
                | .fail msg env₁ store₁ => .res false msg env₁ store₁
                | .retEx v s => .retEx v s
                | .death m => .death m
                | .pyErr m => .pyErr m
                | .overflow => .overflow
                | .noFuel => .noFuel
              else
                unpackFinGroup host stk f env store isStr full vOff mOff
                  values multi named mname captured false msRest
          | [] =>
              unpackFinGroup host stk f env store isStr full vOff mOff
                values multi named mname captured false msRest
        else if captured < 0 then
          .res false ("the given " ++ myself ++ " is too small to be captured by "
            ++ mname) env store
        else
          match pyIndex full vOff with
          | none => .pyErr "IndexError: list index out of range"
          | some item =>
              match visitPattern host store stk f env member item with
              | .res true _ env' store' =>
                  unpackGo host store' stk f env' isStr full (vOff + 1) (mOff + 1) msRest
              | .res false payload env' store' =>
                  .res false ("unpack failed on member no. " ++ toString (mOff + 1)
                    ++ ", for item no. " ++ toString (vOff + 1) ++ "; " ++ payload)
                    env' store'
              | .retEx v s => .retEx v s
              | .death m => .death m
              | .pyErr m => .pyErr m
              | .overflow => .overflow
              | .noFuel => .noFuel
termination_by structural fuel


/-- Tail of a variable-length member's iteration (machine.py:387-391 and
the loop-footer offset bumps): the zero-capture check for `+`-members,
the optional binding, and the offset arithmetic (`v_off` gains one extra
when a delimiter was consumed; the member list correspondingly skips the
delimiter pattern). -/
def unpackFinGroup (host : HostModel) (stk fuel : Nat)
    (env₁ : RyEnvL) (store₁ : Store) (isStr : Bool) (full : List RyVal)
    (vOff : Int) (mOff : Nat) (values : List RyVal) (multi named : Bool)
    (mname : String) (capI : Int) (found : Bool) (msNext : List RyPattern) : PatRes :=
  match fuel with
  | 0 => .noFuel
  | f + 1 =>
    if capI == 0 && multi then
      .res false ("\"" ++ mname ++ "\" required at least one item to match, got none: "
        ++ ryRepr (reconstructVal isStr full)) env₁ store₁
    else
      let env₂ := if named then env₁.set mname (mkBind isStr (pyTakeTo values capI)) else env₁
      let vOff' := vOff + (if found then 1 else 0) + capI
      unpackGo host store₁ stk f env₂ isStr full vOff' (mOff + (if found then 2 else 1)) msNext
termination_by structural fuel


/-- Delimiter scan of a variable-length member (machine.py:376-386):
try the delimiter pattern against each remaining item; a match fixes
the captured count at that index; reaching the last item without a
match fails; an empty remainder falls through without scanning. -/
def scanDelim (host : HostModel) (store : Store) (stk fuel : Nat) (env : RyEnvL)
    (d : RyPattern) (name myself wholeRepr : String) (idx : Nat) :
    List RyVal → DelimRes :=
  fun values =>
  match fuel with
  | 0 => .noFuel
  | f + 1 =>
    match values with
    | [] => .nohit env store
    | item :: rest =>
        match visitPattern host store stk f env d item with
        | .res true _ env' store' => .found idx env' store'
        | .res false _ env' store' =>
            match rest with
            | [] =>
                .fail ("reached the end of the " ++ myself
                  ++ " searching for the delimiter of \"" ++ name ++ "\": "
                  ++ wholeRepr) env' store'
            | _ => scanDelim host store' stk f env' d name myself wholeRepr (idx + 1) rest
        | .retEx v s => .retEx v s
        | .death m => .death m
        | .pyErr m => .pyErr m
        | .overflow => .overflow
        | .noFuel => .noFuel
termination_by structural fuel

end

/-! ### The kernel environment

`Master.kernel` (master.py:84-99) populates the root environment:
`PATH` and `MODULE-CACHE`, the boolean constants, one `type`-tagged
binding per direct `HasType` subclass (in class-definition order:
RyTypeType, RyVariations, RyFunction, RyObject, RyRouteable, RyExcerpt,
RyBuiltin, RyNothing, RyBool, RyVec, RyNum, RyStr), and one `#:`-keyed
builtin per `_k_` method found by `dir(self)` (alphabetical order:
`_k_builtin`, `_k_call`, `_k_import`, `_k_set_guard_precedence`,
`_k_set_precedence`, `_k_to_py`, `_k_wraps`; the key drops the `_k_`
prefix and replaces underscores with dashes, master.py:97-99).
`Master.builtin` stores the raw bound method in the environment
(master.py:28-33), modelled as `pyCallable` values; `MODULE-CACHE` is an
`RyVec` wrapping an (initially empty) Python set of `RyStr` paths
(master.py:90), modelled with an empty item list. -/

def RyEnvL.ofPairs : List (String × RyVal) → RyEnvL
  | [] => .nil
  | (k, v) :: rest => .cons k v (RyEnvL.ofPairs rest)

def kernelEnv (basis : String) : RyEnvL :=
  .ofPairs
    [ ("PATH", .str (".;" ++ basis)),
      ("MODULE-CACHE", .vec .nil),
      ("true", .bool true),
      ("false", .bool false),
      ("type", .typeT "type"),
      ("variations", .typeT "variations"),
      ("function", .typeT "function"),
      ("object", .typeT "object"),
      ("routeable", .typeT "routeable"),
      ("excerpt", .typeT "excerpt"),
      ("builtin", .typeT "builtin"),
      ("nothing", .typeT "nothing"),
      ("bool", .typeT "bool"),
      ("vec", .typeT "vec"),
      ("num", .typeT "num"),
      ("str", .typeT "str"),
      ("#:builtin", .pyCallable 0),
      ("#:call", .pyCallable 1),
      ("#:import", .pyCallable 2),
      ("#:set-guard-precedence", .pyCallable 3),
      ("#:set-precedence", .pyCallable 4),
      ("#:to-py", .pyCallable 5),
      ("#:wraps", .pyCallable 6) ]

/-! ### The module loader

The `Needs` branch (machine.py:496-520).  For each directory of the
semicolon-separated `PATH`, the candidate file is
`<dir>/[_]<module>.ry` (the underscore when `hidden`); the first
existing file wins.  A path already present (by string value) in
`MODULE-CACHE` short-circuits: the branch returns `nothing` without
touching the cache or the module body.  Otherwise the module is loaded
once and its absolute path added to the cache — in both the `expose`
branch (machine.py:513-514, a set-update with one fresh `RyStr`) and
the plain branch (machine.py:516) the cache's value set gains exactly
the one new path string.

Modelled from the spec: the child-master load (machine.py:503-510) calls
`master.kernel()`, `master.boot()` and `master.feed(source)`, but
`Master.boot` is not defined under src (master.py declares only
`kernel`, `load_init` and `feed`); per spec §4.4 and §4.3 ("instantiate
a fresh master, bootstrap its kernel, load its prelude, evaluate the
source, and merge the child Reader's switch tables") the load is
modelled as one counted parse-and-evaluation of the module body that
does not touch the parent's cache.  The export merging into the parent
environment and the reader-switch merge are outside the cache claim and
are not modelled; `Path(...) / ... .absolute()` is modelled as string
concatenation of an absolute candidate path, and the filesystem by the
predicate `fs`. -/

def splitOnCharL (c : Char) : List Char → List (List Char)
  | [] => [[]]
  | a :: rest =>
      let r := splitOnCharL c rest
      if a == c then [] :: r
      else
        match r with
        | g :: gs => (a :: g) :: gs
        | [] => [[a]]

/-- Python `s.split(';')` (machine.py:498). -/
def splitSemis (s : String) : List String :=
  (splitOnCharL ';' s.toList).map String.mk

structure NeedsNode where
  module : String
  hidden : Bool
  expose : Bool

/-- The candidate path for one `PATH` entry
(machine.py:499, `Path(location) / f'...{module}.ry'`). -/
def candidatePath (location : String) (node : NeedsNode) : String :=
  location ++ "/" ++ (if node.hidden then "_" else "") ++ node.module ++ ".ry"

/-- The first existing candidate along `PATH` (machine.py:498-500). -/
def resolveNeeds (fs : String → Bool) (pathVar : String) (node : NeedsNode) :
    Option String :=
  ((splitSemis pathVar).map (fun loc => candidatePath loc node)).find? fs

def evalNeedsGo (fs : String → Bool) (cache : List String) (node : NeedsNode) :
    List String → Except String (List String × Nat)
  | [] =>
      .error ((if node.hidden then "hidden " else "")
        ++ "module not found: \"" ++ node.module ++ "\"")
  | loc :: rest =>
      let path := candidatePath loc node
      if fs path then
        if cache.contains path then .ok (cache, 0)
        else .ok (path :: cache, 1)
      else evalNeedsGo fs cache node rest

/-- The `Needs` branch (machine.py:496-520) restricted to its effect on
`MODULE-CACHE`: returns the updated cache (a list of distinct path
strings modelling the set's `.value` strings) together with the number
of module-body evaluations performed. -/
def evalNeeds (fs : String → Bool) (pathVar : String) (cache : List String)
    (node : NeedsNode) : Except String (List String × Nat) :=
  evalNeedsGo fs cache node (splitSemis pathVar)

/-! ### The token-level reader model

The Reader's switch tables (reader.py:62-79), its mutation primitives
(reader.py:104-124), and the expression layer of its parser
(reader.py:269-374), modelled over a token stream.  Lexing of an
identifier-shaped lexeme is modelled by `lexWord` (reader.py:175-178:
a keyword match emits the uppercased spelling as the token type,
anything else `ID`); symbol lexemes emit their own spelling as the
token type (reader.py:187-188). -/

structure Token where
  ttype : String
  tvalue : String

structure Switches where
  tokensT : List (String × String)
  symbols : List String
  prefixesT : List String
  keywords : List String
  precedence : List (String × (String × Int))

/-- The initial switch tables (reader.py:62-78). -/
def initialSwitches : Switches :=
  { tokensT := [],
    symbols :=
      ["->", "=>", "!", "_",
       "=", ".", ",", "(", ")",
       "[", "]", "\x7b", "\x7d",
       "*", "+"],
    prefixesT := [],
    keywords :=
      ["for", "expect", "ret", "if", "else", "case",
       "division", "needs", "hidden", "exposed",
       "new", "obj", "secret", "umbrella"],
    precedence := [] }

def alGet (l : List (String × α)) (k : String) : Option α :=
  match l with
  | [] => none
  | (k', v) :: rest => if k' == k then some v else alGet rest k

/-- Python dict update: replace in place or append. -/
def alSet (l : List (String × α)) (k : String) (v : α) : List (String × α) :=
  match l with
  | [] => [(k, v)]
  | (k', w) :: rest => if k' == k then (k, v) :: rest else (k', w) :: alSet rest k v

/-- Python set add, preserving first-insertion order. -/
def setAdd (l : List String) (x : String) : List String :=
  if l.contains x then l else l ++ [x]

def asciiUpper (s : String) : String := String.mk (s.toList.map Char.toUpper)
def asciiLower (s : String) : String := String.mk (s.toList.map Char.toLower)

/-- `op[0].isalpha()`; the source would raise on an empty name, which
no registration produces. -/
def firstCharAlpha (s : String) : Bool :=
  match s.toList with
  | [] => false
  | c :: _ => c.isAlpha

/-- `Reader.add_operator` (reader.py:114-118): record the operator's
associativity and precedence under its token type, and add non-alphabetic
operators to the symbol set. -/
def addOperator (sw : Switches) (op : String) (assoc : String) (prec : Int) :
    Switches :=
  let sw := { sw with precedence := alSet sw.precedence op (assoc, prec) }
  if !firstCharAlpha op then { sw with symbols := setAdd sw.symbols op } else sw

/-- `Reader.add_prefix` (reader.py:104-108). -/
def addPrefixT (sw : Switches) (p : String) : Switches :=
  let sw := { sw with prefixesT := setAdd sw.prefixesT p }
  if !firstCharAlpha p then { sw with symbols := setAdd sw.symbols p } else sw

/-- `Reader.add_keyword` (reader.py:110-112). -/
def addKeyword (sw : Switches) (k : String) : Switches :=
  { sw with keywords := setAdd sw.keywords k }

/-- Modelled from the spec: the evaluator's registration of a quoted
function definition in the Reader's switch tables (spec §4.3: validate
arity in 1..2; with arity 2 register the operator as an infix with
associativity `left` and precedence the current value of `*PREC*`;
with arity 1 register it as a prefix; also register the bare spelling
as a keyword when alphabetic — non-alphabetic spellings enter the
symbol set through `add_operator`/`add_prefix` themselves).  This step
is absent from the snapshot's machine.py: the Function branch
(machine.py:444-468) performs only the arity validation, and
`add_operator`/`add_prefix`/`add_keyword` (reader.py:104-118) have no
callers under src; `*PREC*` is likewise absent and is the `prec`
argument here.  Operator token types are registered uppercased, as
`add_operator`'s contract assumes and as the keyword lexer emits. -/
def registerQuoted (sw : Switches) (name : String) (arity : Nat) (prec : Int) :
    Except String Switches :=
  if !(arity == 1 || arity == 2) then
    .error ("expected either a prefix (arity = 1) or infix (arity = 2), got arity = "
      ++ toString arity)
  else
    let bare := String.mk (name.toList.drop 1)
    let ttype := asciiUpper bare
    let sw := if arity == 2 then addOperator sw ttype "left" prec else addPrefixT sw ttype
    let sw := if firstCharAlpha bare then addKeyword sw bare else sw
    .ok sw

/-- Token-level model of lexing an identifier-shaped lexeme
(reader.py:175-178). -/
def lexWord (sw : Switches) (w : String) : Token :=
  if sw.keywords.contains w then ⟨asciiUpper w, w⟩ else ⟨"ID", w⟩

/-- Pretty token types for parse errors (reader.py:128-148). -/
def prettyTokType (t : String) : String :=
  if t == "NL" then "newline"
  else if t == "EOF" then "end-of-input"
  else if t == "BOL" then "beginning-of-line"
  else if t == "ID" then "identifier"
  else if t == "BUILTIN" then "builtin literal"
  else if t == "NUM" then "number literal"
  else if t == "STR" then "string literal"
  else "\"" ++ asciiLower t ++ "\""

structure PSt where
  toks : List Token

def curType (st : PSt) : String :=
  match st.toks with
  | [] => "EOF"
  | t :: _ => t.ttype

/-- `Reader._consume` (reader.py:210-219) over the token stream. -/
def consumeTok (types : List String) (st : PSt) : Option (Token × PSt) :=
  match st.toks with
  | [] => none
  | t :: rest => if types.contains t.ttype then some (t, ⟨rest⟩) else none

inductive PRes where
  | node (n : RyNode) (st : PSt)
  | fls (st : PSt)
  | rerr (msg : String)
  | pNoFuel

inductive PResL where
  | nodes (ns : List RyNode) (st : PSt)
  | fls (st : PSt)
  | rerr (msg : String)
  | pNoFuel

/-! The expression layer of the parser (reader.py:269-374): `pValue` is
`_value`, `pCallE` is `_call`, `pPre` is `_prefix`, and
`pOpExpr`/`pOpLoop` are `_infix` with its Pratt loop.  `new`-expressions
(`Instance` nodes) are outside the modelled fragment and are reported
as a reader error by the model. -/

mutual

def pValue (sw : Switches) (fuel : Nat) (st : PSt) : PRes :=
  match fuel with
  | 0 => .pNoFuel
  | f + 1 =>
    match consumeTok ["ID", "BUILTIN", "STR", "NUM", "(", "["] st with
    | none => .fls st
    | some (tok, st₁) =>
        if tok.ttype == "ID" then
          pPathLoop sw f tok.tvalue [] st₁
        else if tok.ttype == "BUILTIN" then
          .node (.builtinN (String.mk (tok.tvalue.toList.drop 2))) st₁
        else if tok.ttype == "STR" then
          .node (.str (String.mk (tok.tvalue.toList.drop 1).dropLast)) st₁
        else if tok.ttype == "NUM" then
          .node (.number tok.tvalue) st₁
        else if tok.ttype == "[" then
          match pVecItems sw f st₁ with
          | .nodes items st₂ => .node (.vector items) st₂
          | .fls _ => .rerr "expected a vector item or \"]\" when reading a vector"
          | .rerr m => .rerr m
          | .pNoFuel => .pNoFuel
        else
          match pOpExpr sw 0 f st₁ with
          | .node inside st₂ =>
              match consumeTok [")"] st₂ with
              | some (_, st₃) => .node inside st₃
              | none => .rerr ("expected \")\", found " ++ prettyTokType (curType st₂))
          | .fls st₂ => .rerr ("expected an expression, found " ++ prettyTokType (curType st₂))
          | .rerr m => .rerr m
          | .pNoFuel => .pNoFuel

def pPathLoop (sw : Switches) (fuel : Nat) (parent : String)
    (acc : List String) (st : PSt) : PRes :=
  match fuel with
  | 0 => .pNoFuel
  | f + 1 =>
    match consumeTok ["."] st with
    | none => .node (.path parent acc) st
    | some (_, st₁) =>
        match consumeTok ["ID"] st₁ with
        | none => .rerr ("expected an identifier, found " ++ prettyTokType (curType st₁))
        | some (part, st₂) => pPathLoop sw f parent (acc ++ [part.tvalue]) st₂

def pVecItems (sw : Switches) (fuel : Nat) (st : PSt) : PResL :=
  match fuel with
  | 0 => .pNoFuel
  | f + 1 =>
    match consumeTok ["]"] st with
    | some (_, st₁) => .nodes [] st₁
    | none =>
        match consumeTok ["NL"] st with
        | some (_, st₁) =>
            pVecItems sw f st₁
        | none =>
            match pValue sw f st with
            | .node n st₁ =>
                match pVecItems sw f st₁ with
                | .nodes ns st₂ => .nodes (n :: ns) st₂
                | .fls st₂ => .fls st₂
                | .rerr m => .rerr m
                | .pNoFuel => .pNoFuel
            | .fls st₁ => .fls st₁
            | .rerr m => .rerr m
            | .pNoFuel => .pNoFuel

def pCallArgs (sw : Switches) (fuel : Nat) (acc : List RyNode) (st : PSt) :
    PResL :=
  match fuel with
  | 0 => .pNoFuel
  | f + 1 =>
    match pValue sw f st with
    | .node a st₁ => pCallArgs sw f (acc ++ [a]) st₁
    | .fls st₁ => .nodes acc st₁
    | .rerr m => .rerr m
    | .pNoFuel => .pNoFuel

def pCallE (sw : Switches) (fuel : Nat) (st : PSt) : PRes :=
  match fuel with
  | 0 => .pNoFuel
  | f + 1 =>
    if !(["ID", "NEW", "BUILTIN", "("].contains (curType st)) then
      pValue sw f st
    else
      match consumeTok ["NEW"] st with
      | some _ => .rerr "new-expressions are outside the modelled fragment"
      | none =>
          match pValue sw f st with
          | .node callee st₁ =>
              match consumeTok ["!"] st₁ with
              | some (_, st₂) => .node (.call callee []) st₂
              | none =>
                  match pCallArgs sw f [] st₁ with
                  | .nodes args st₂ =>
                      match args with
                      | [] => .node callee st₂
                      | _ => .node (.call callee args) st₂
                  | .fls st₂ => .fls st₂
                  | .rerr m => .rerr m
                  | .pNoFuel => .pNoFuel
          | .fls st₁ =>
              match consumeTok ["!"] st₁ with
              | some _ => .rerr "call with a False callee is outside the modelled fragment"
              | none => .fls st₁
          | .rerr m => .rerr m
          | .pNoFuel => .pNoFuel

def pPre (sw : Switches) (fuel : Nat) (st : PSt) : PRes :=
  match fuel with
  | 0 => .pNoFuel
  | f + 1 =>
    match consumeTok sw.prefixesT st with
    | some (op, st₁) =>
        match pPre sw f st₁ with
        | .node operand st₂ =>
            .node (.call (.path ("\x27" ++ asciiLower op.tvalue) []) [operand]) st₂
        | .fls _ =>
            .rerr ("expected a value to follow prefix \"" ++ op.tvalue ++ "\"")
        | .rerr m => .rerr m
        | .pNoFuel => .pNoFuel
    | none => pCallE sw f st

def pOpExpr (sw : Switches) (depth : Int) (fuel : Nat) (st : PSt) : PRes :=
  match fuel with
  | 0 => .pNoFuel
  | f + 1 =>
    match pPre sw f st with
    | .node left st₁ => pOpLoop sw depth f left st₁
    | .fls st₁ => .fls st₁
    | .rerr m => .rerr m
    | .pNoFuel => .pNoFuel

def pOpLoop (sw : Switches) (depth : Int) (fuel : Nat) (left : RyNode)
    (st : PSt) : PRes :=
  match fuel with
  | 0 => .pNoFuel
  | f + 1 =>
    let (assoc, prec) := (alGet sw.precedence (curType st)).getD ("", 0)
    if depth ≥ prec then .node left st
    else
      match consumeTok [curType st] st with
      | none => .node left st
      | some (opTok, st₁) =>
          match pOpExpr sw (prec - (if assoc == "right" then 1 else 0)) f st₁ with
          | .node right st₂ =>
              pOpLoop sw depth f
                (.call (.path ("\x27" ++ asciiLower opTok.ttype) []) [left, right]) st₂
          | .fls st₂ =>
              .rerr ("expected right hand side of an expression, found "
                ++ prettyTokType (curType st₂))
          | .rerr m => .rerr m
          | .pNoFuel => .pNoFuel

end

/-! ## Claim analysis -/

/-- A host-call oracle that models an environment in which no host
callable is ever applied; no claim exercises host callables. -/
def hostNone : HostModel := fun _ _ => .exn "host call outside the modelled fragment"

/-! ### C6 — structural equality -/

/-- Values whose box payload is "empty-ish" in the sense of
machine.py:308 (`lval in ('', [])`): the empty string, the empty
vector, and the empty type name. -/
def isEmptyishV : RyVal → Bool
  | .str s => s == ""
  | .vec .nil => true
  | .typeT s => s == ""
  | _ => false

theorem equalsL_eq_all : ∀ xs ys : RyValList,
    equalsL xs ys = (xs.toList.zip ys.toList).all (fun p => equals p.1 p.2)
  | .nil, ys => by simp [equalsL, RyValList.toList]
  | .cons x xs, .nil => by simp [equalsL, RyValList.toList]
  | .cons x xs, .cons y ys => by
      simp [equalsL, RyValList.toList, equalsL_eq_all xs ys]

/-- The description of `_equals` in the claim's terms, amended by the
behaviors the code actually has: (a) two booleans compare by value;
(b) two vectors compare by length and pairwise recursive equality;
(c) the remaining boxed primitives compare equal when they are the same
variant with equal payload — `num`/`num`, `str`/`str`, `type`/`type`,
`builtin`/`builtin` over the same host callable — or when a `str` and a
`type` carry the same name string, or when both sides are empty-ish
(empty string, empty vector, empty type name) in any combination of
variants; everything else, non-boxes included, is unequal. -/
def EqualsDescr (l r : RyVal) : Prop :=
  (∃ a, l = .bool a ∧ r = .bool a)
  ∨ (∃ xs ys, l = .vec xs ∧ r = .vec ys ∧ xs.length = ys.length
      ∧ ∀ p ∈ xs.toList.zip ys.toList, equals p.1 p.2 = true)
  ∨ (∃ q, l = .num q ∧ r = .num q)
  ∨ (∃ s, l = .str s ∧ r = .str s)
  ∨ (∃ s, l = .typeT s ∧ r = .typeT s)
  ∨ (∃ i, l = .builtinB (.pyCallable i) ∧ r = .builtinB (.pyCallable i))
  ∨ (∃ s, l = .str s ∧ r = .typeT s)
  ∨ (∃ s, l = .typeT s ∧ r = .str s)
  ∨ (isEmptyishV l = true ∧ isEmptyishV r = true)

/-- Is a value list empty? -/
def isNilL : RyValList → Bool
  | .nil => true
  | .cons _ _ => false

theorem pyEq_rat_rat (a b : Rat) : pyEq (.rat a) (.rat b) = (a == b) := rfl
theorem pyEq_pstr_pstr (a b : String) : pyEq (.pstr a) (.pstr b) = (a == b) := rfl
theorem pyEq_rat_pstr (a : Rat) (b : String) : pyEq (.rat a) (.pstr b) = false := rfl
theorem pyEq_pstr_rat (a : String) (b : Rat) : pyEq (.pstr a) (.rat b) = false := rfl

theorem pyEq_rat_plist (a : Rat) (xs : RyValList) :
    pyEq (.rat a) (.plist xs) = false := by cases xs <;> rfl
theorem pyEq_plist_rat (xs : RyValList) (a : Rat) :
    pyEq (.plist xs) (.rat a) = false := by cases xs <;> rfl
theorem pyEq_pstr_plist (s : String) (xs : RyValList) :
    pyEq (.pstr s) (.plist xs) = false := by cases xs <;> rfl
theorem pyEq_plist_pstr (xs : RyValList) (s : String) :
    pyEq (.plist xs) (.pstr s) = false := by cases xs <;> rfl
theorem pyEq_plist_plist (xs ys : RyValList) :
    pyEq (.plist xs) (.plist ys) = (isNilL xs && isNilL ys) := by
  cases xs <;> cases ys <;> rfl

theorem pyEq_rat_innerPy (a : Rat) (v : RyVal) :
    pyEq (.rat a) (innerPy v) = false := by cases v <;> rfl
theorem pyEq_innerPy_rat (v : RyVal) (a : Rat) :
    pyEq (innerPy v) (.rat a) = false := by cases v <;> rfl
theorem pyEq_pstr_innerPy (s : String) (v : RyVal) :
    pyEq (.pstr s) (innerPy v) = false := by cases v <;> rfl
theorem pyEq_innerPy_pstr (v : RyVal) (s : String) :
    pyEq (innerPy v) (.pstr s) = false := by cases v <;> rfl
theorem pyEq_plist_innerPy (xs : RyValList) (v : RyVal) :
    pyEq (.plist xs) (innerPy v) = false := by cases v <;> cases xs <;> rfl
theorem pyEq_innerPy_plist (v : RyVal) (xs : RyValList) :
    pyEq (innerPy v) (.plist xs) = false := by cases v <;> cases xs <;> rfl

theorem pyEmptyish_rat (a : Rat) : pyEmptyish (.rat a) = false := rfl
theorem pyEmptyish_pstr (s : String) : pyEmptyish (.pstr s) = (s == "") := by
  simp [pyEmptyish, pyEq_pstr_pstr, pyEq_pstr_plist]
theorem pyEmptyish_plist (xs : RyValList) : pyEmptyish (.plist xs) = isNilL xs := by
  cases xs <;> rfl
theorem pyEmptyish_innerPy (v : RyVal) : pyEmptyish (innerPy v) = false := by
  cases v <;> rfl

theorem isEmptyishV_str (s : String) : isEmptyishV (.str s) = (s == "") := rfl
theorem isEmptyishV_typeT (s : String) : isEmptyishV (.typeT s) = (s == "") := rfl
theorem isEmptyishV_vec (xs : RyValList) : isEmptyishV (.vec xs) = isNilL xs := by
  cases xs <;> rfl

theorem isEmptyishV_num (q : Rat) : isEmptyishV (.num q) = false := rfl
theorem isEmptyishV_bool (b : Bool) : isEmptyishV (.bool b) = false := rfl
theorem isEmptyishV_nothing : isEmptyishV .nothing = false := rfl
theorem isEmptyishV_builtinB (v : RyVal) : isEmptyishV (.builtinB v) = false := rfl
theorem isEmptyishV_pyCallable (i : Nat) : isEmptyishV (.pyCallable i) = false := rfl
theorem isEmptyishV_variationsV (v : RyVars) : isEmptyishV (.variationsV v) = false := rfl
theorem isEmptyishV_objectV (a : String) (b : RyPatternList) (c : List RyNode) (d : Nat) :
    isEmptyishV (.objectV a b c d) = false := rfl
theorem isEmptyishV_routeable (a : String) (b : RyEnvL) (c : RyValList) :
    isEmptyishV (.routeable a b c) = false := rfl
theorem isEmptyishV_excerpt (a : RyEnvL) (b : RyNode) : isEmptyishV (.excerpt a b) = false := rfl

/-- C6, counterexample.  The claim asserts that two values of different
variants — "including the empty string versus the empty vector" — are
unequal, but `_equals` (machine.py:308) sends that very pair through
`lval in ('', []) and rval in ('', [])` and returns `True`. -/
theorem C6_counterexample : equals (.str "") (.vec .nil) = true := rfl

theorem C6_equals_characterization (l r : RyVal) :
    equals l r = true ↔ EqualsDescr l r := by
  cases l <;> cases r <;>
    simp only [equals] <;>
    simp [EqualsDescr, RyVal.isBoxV, RyVal.isBoolV, pyValOf, isNilL,
      pyEq_rat_rat, pyEq_pstr_pstr, pyEq_rat_pstr, pyEq_pstr_rat,
      pyEq_rat_plist, pyEq_plist_rat, pyEq_pstr_plist, pyEq_plist_pstr,
      pyEq_plist_plist, pyEq_rat_innerPy, pyEq_innerPy_rat,
      pyEq_pstr_innerPy, pyEq_innerPy_pstr, pyEq_plist_innerPy,
      pyEq_innerPy_plist, pyEmptyish_rat, pyEmptyish_pstr, pyEmptyish_plist,
      pyEmptyish_innerPy, isEmptyishV_str, isEmptyishV_typeT, isEmptyishV_vec,
      isEmptyishV_num, isEmptyishV_bool, isEmptyishV_nothing, isEmptyishV_builtinB,
      isEmptyishV_pyCallable, isEmptyishV_variationsV, isEmptyishV_objectV,
      isEmptyishV_routeable, isEmptyishV_excerpt, isNilL]
  all_goals try exact eq_comm
  case vec.vec xs ys =>
    rw [equalsL_eq_all]
    constructor
    · rintro ⟨h1, h2⟩
      exact Or.inl ⟨h1, fun a b hab => by
        simpa using List.all_eq_true.mp h2 (a, b) hab⟩
    · rintro (⟨h1, h2⟩ | ⟨h1, h2⟩)
      · exact ⟨h1, List.all_eq_true.mpr fun p hp => by
          simpa using h2 p.1 p.2 (by simpa using hp)⟩
      · cases xs <;> cases ys <;> simp_all [RyValList.toList]
  case builtinB.builtinB v w =>
    cases v <;> cases w <;> simp [innerPy, pyEq] <;> aesop
  all_goals constructor
  all_goals rintro (⟨rfl, rfl⟩ | rfl | ⟨rfl, rfl⟩) <;> simp_all

/-! ### C3 — variation bundle ordering -/

theorem mem_insertDesc (key : α → Nat) (x y : α) (l : List α) :
    y ∈ insertDesc key x l ↔ y = x ∨ y ∈ l := by
  induction l with
  | nil => simp [insertDesc]
  | cons z zs ih =>
      by_cases h : key x < key z <;> simp [insertDesc, h, ih] <;> tauto

theorem mem_stableSortDesc (key : α → Nat) (l : List α) (y : α) :
    y ∈ stableSortDesc key l ↔ y ∈ l := by
  induction l with
  | nil => simp [stableSortDesc]
  | cons x xs ih => simp [stableSortDesc, mem_insertDesc, ih]

theorem dispatch_found_mem : ∀ (fuel : Nat) (host : HostModel) (store : Store)
    (stk : Nat) (args : List RyVal) (vars : List RyFunc) (g : RyFunc)
    (env' : RyEnvL) (store' : Store),
    dispatch host store stk fuel args vars = .found g env' store' → g ∈ vars := by
  intro fuel
  induction fuel with
  | zero =>
      intro host store stk args vars g env' store' h
      simp [dispatch] at h
  | succ f ih =>
      intro host store stk args vars g env' store' h
      cases vars with
      | nil => simp [dispatch] at h
      | cons fn rest =>
          simp only [dispatch] at h
          split at h
          · simp only [DispRes.found.injEq] at h
            exact h.1 ▸ List.mem_cons_self fn rest
          · split at h
            · cases h
            · exact List.mem_cons_of_mem fn (ih host _ stk args rest g env' store' h)
          all_goals cases h

/-- C3, counterexample setup: a slurpy definition followed by an
ordinary one.  The Function branch assigns a slurpy variation the fixed
priority `2**3` (machine.py:446), not the sum of its parameter
signatures, so the re-sorted bundle is ordered by stored priority, not
by aggregate signature. -/
def C3slurpyNode : RyNode :=
  .function "f" (.ofL [.pCompare (.number "0")]) [.number "0"] true false false

def C3idNode : RyNode :=
  .function "f" (.ofL [.pIdentifier "n"]) [.number "1"] false false false

def C3f1 : RyFunc := ⟨"f", RyPriority.slurpy, .ofL [.pCompare (.number "0")], [.number "0"], 0⟩

def C3f2 : RyFunc := ⟨"f", RyPriority.identifier, .ofL [.pIdentifier "n"], [.number "1"], 1⟩

def C3vars1 : RyVars := ⟨"f", false, false, [C3f1]⟩
def C3env1 : RyEnvL := .cons "f" (.variationsV C3vars1) .nil
def C3vars2 : RyVars := ⟨"f", false, false, [C3f2, C3f1]⟩
def C3env2 : RyEnvL := .cons "f" (.variationsV C3vars2) .nil

/-- C3, counterexample.  After defining a slurpy variation (aggregate
signature `2**24`, stored priority `2**3`) and then an identifier
variation (aggregate `2**12`), the installed bundle is
`[identifier-variation, slurpy-variation]` — not in descending order of
aggregate signature, refuting the claim as stated. -/
theorem C3_counterexample :
    visit hostNone [] 9 9 .nil C3slurpyNode
        = .ok (.variationsV C3vars1) C3env1 [C3env1]
    ∧ visit hostNone [C3env1] 9 9 C3env1 C3idNode
        = .ok (.variationsV C3vars2) C3env2 [C3env1, C3env2]
    ∧ C3vars2.variations = [C3f2, C3f1]
    ∧ prioritizeL C3f2.params < prioritizeL C3f1.params
    ∧ ¬ (C3vars2.variations.Sorted
          (fun a b => prioritizeL b.params ≤ prioritizeL a.params)) := by
  refine ⟨rfl, rfl, rfl, by decide, ?_⟩
  simp only [C3vars2, List.sorted_cons]
  intro h
  have := h.1 C3f1 (by simp)
  revert this
  decide

/-- C3, amended.  After every function definition the installed bundle
is sorted in descending order of the variations' stored priorities
(`RyVariations.add`, machine.py:69-72); the stored priority is the
aggregate signature — the sum of the parameter pattern signatures with
the claimed weights — for every non-slurpy variation
(machine.py:445-446), so bundles of non-slurpy variations are sorted in
descending order of aggregate signature; and dispatch tries variations
in bundle order, the first fully matching one winning
(machine.py:574-594). -/
theorem C3_variations_order :
    (∀ (vars : List RyFunc) (f : RyFunc),
       (RyVars.add vars f).Sorted (fun a b => b.priority ≤ a.priority))
    ∧ (∀ ps : RyPatternList, prioritizeL ps = (ps.toList.map prioritize).sum)
    ∧ (∀ (vars : List RyFunc) (f : RyFunc),
       (∀ g ∈ vars ++ [f], g.priority = prioritizeL g.params) →
       (RyVars.add vars f).Sorted
         (fun a b => prioritizeL b.params ≤ prioritizeL a.params))
    ∧ (∀ (fuel : Nat) (host : HostModel) (store : Store) (stk : Nat)
         (args : List RyVal) (vars : List RyFunc) (g : RyFunc)
         (env' : RyEnvL) (store' : Store),
       dispatch host store stk fuel args vars = .found g env' store' → g ∈ vars)
    ∧ (∀ (host : HostModel) (store : Store) (stk fuel : Nat)
         (args : List RyVal) (fn : RyFunc) (rest : List RyFunc)
         (p : String) (env' : RyEnvL) (store' : Store),
       fn.priority ≠ RyPriority.slurpy → fn.arity = args.length → 0 < fn.arity →
       matchParams host store stk fuel (store.getRef fn.stateRef) fn.params.toList args
         = .res true p env' store' →
       dispatch host store stk (fuel + 1) args (fn :: rest) = .found fn env' store') := by
  refine ⟨fun vars f => sorted_stableSortDesc _ _,
          prioritizeL_eq_sum, ?_, dispatch_found_mem, ?_⟩
  · intro vars f hall
    have hs := sorted_stableSortDesc RyFunc.priority (vars ++ [f])
    refine List.Pairwise.imp_of_mem ?_ hs
    intro a b ha hb hab
    rw [← hall a ((mem_stableSortDesc _ _ _).mp ha),
        ← hall b ((mem_stableSortDesc _ _ _).mp hb)]
    exact hab
  · intro host store stk fuel args fn rest p env' store' hns ha h0 hm
    have hbeq : (fn.priority == RyPriority.slurpy) = false := by
      simpa using hns
    have habeq : (fn.arity == args.length) = true := by simpa using ha
    have h0beq : (fn.arity == 0) = false := by
      simp only [beq_eq_false_iff_ne, ne_eq]
      omega
    simp [dispatch, hbeq, habeq, h0beq, hm]

/-- C3, witness: the sorted-by-aggregate conclusion at the singleton
bundle of the identifier variation, and head-match-wins dispatch of
that variation on one argument. -/
theorem C3_variations_order_witness :
    (RyVars.add [] C3f2).Sorted
      (fun a b => prioritizeL b.params ≤ prioritizeL a.params)
    ∧ dispatch hostNone [C3env1, C3env2] 3 4 [.num 5] [C3f2]
        = .found C3f2
            (.cons "f" (.variationsV C3vars2) (.cons "n" (.num 5) .nil))
            [C3env1, C3env2] := by
  constructor
  · refine C3_variations_order.2.2.1 [] C3f2 ?_
    intro g hg
    simp only [List.nil_append, List.mem_singleton] at hg
    subst hg
    decide
  · exact C3_variations_order.2.2.2.2 hostNone [C3env1, C3env2] 3 3 [.num 5]
      C3f2 [] ""
      (.cons "f" (.variationsV C3vars2) (.cons "n" (.num 5) .nil))
      [C3env1, C3env2] (by decide) (by decide) (by decide) rfl

/-! ### C4 — case-arm ordering -/

/-- A match pattern nested deeply enough that its signature exceeds the
fixed `2**32` key of `ValueCase` arms. -/
def C4deep : Nat → RyPattern
  | 0 => .pCompare (.number "0")
  | n + 1 => .pUnpack (.ofL [C4deep n])

def C4mc : RyCase := .matchCase (C4deep 8) [.number "1"]
def C4vc : RyCase := .valueCase (.number "1") [.number "2"]

/-- C4, counterexample.  With a `MatchCase` whose pattern signature
exceeds `2**32` (eight nested unpacks around a compare), the arm sort
of the `Cases` branch places the `MatchCase` *before* the `ValueCase`,
refuting the claim that every `ValueCase` arm outranks every
`MatchCase` arm for arbitrarily large pattern signatures. -/
theorem C4_counterexample :
    sortCases [C4vc, C4mc] = [C4mc, C4vc] ∧ 2 ^ 32 < caseKey C4mc := by
  exact ⟨rfl, by decide⟩

/-- C4, amended.  The `Cases` branch sorts arms stably in descending
order of the key that assigns a `ValueCase` the constant `2**32` and a
`MatchCase` its pattern's signature (machine.py:421-424); hence a
`ValueCase` outranks exactly those `MatchCase` arms whose signature is
below `2**32`.  A `P_Discard` match-arm sorts with the identifier
signature `2**12` — not maximum priority — but always matches when its
turn comes (machine.py:427-429). -/
theorem C4_cases_order :
    (∀ arms : List RyCase,
       (sortCases arms).Sorted (fun a b => caseKey b ≤ caseKey a))
    ∧ (∀ c body, caseKey (.valueCase c body) = 2 ^ 32)
    ∧ (∀ p body, caseKey (.matchCase p body) = prioritize p)
    ∧ (∀ body, caseKey (.matchCase .pDiscard body) = RyPriority.identifier)
    ∧ (∀ (host : HostModel) (store : Store) (stk fuel : Nat) (env : RyEnvL)
         (head : RyVal) (body : List RyNode) (rest : List RyCase),
       armsGo host store stk (fuel + 1) env head (.matchCase .pDiscard body :: rest)
         = .matched body env store) :=
  ⟨fun arms => sorted_stableSortDesc _ _,
   fun _ _ => rfl, fun _ _ => rfl, fun _ => rfl,
   fun _ _ _ _ _ _ _ _ => rfl⟩

/-! ### C5 — the multi-capture delimiting check -/

/-- The number of variable-length members of an unpack pattern
(`multis + manys`, machine.py:351-352). -/
def countVarLen (ms : List RyPattern) : Nat :=
  (ms.filter isMultiM).length + (ms.filter isManyM).length

/-- C5, counterexample.  The pattern `[a+ b+]` has two adjacent
variable-length members and no delimiter, yet matching it against the
vector `[1 2]` is not rejected: the check at machine.py:357 fires only
for *more than two* variable-length members, so the match succeeds with
`a = [1]` and `b = [2]`. -/
theorem C5_counterexample :
    visitPattern hostNone [] 5 20 .nil
        (.pUnpack (.ofL [.pNamedMulti "a", .pNamedMulti "b"]))
        (.vec (.ofL [.num 1, .num 2]))
      = .res true ""
          (.cons "a" (.vec (.ofL [.num 1]))
            (.cons "b" (.vec (.ofL [.num 2])) .nil)) [] := rfl

/-- C5, amended.  Matching an unpack pattern against a vector or string
dies with "several multi-item captures must be delimited" under the
source's actual condition (machine.py:356-358): more than two
variable-length members and `1.5 ×`-their-count exceeding the member
count — not for every pair of undelimited variable-length members. -/
theorem C5_delimit_check (host : HostModel) (store : Store) (sk f : Nat)
    (env : RyEnvL) (members : RyPatternList) (value : RyVal)
    (hval : (∃ xs, value = .vec xs) ∨ (∃ s, value = .str s))
    (hG : 2 < countVarLen members.toList)
    (hM : 2 * members.toList.length < 3 * countVarLen members.toList) :
    visitPattern host store (sk + 1) (f + 2) env (.pUnpack members) value
      = .death "several multi-item captures must be delimited" := by
  have hkey : ∀ (isStr : Bool) (items : List RyVal),
      unpackStart host store sk (f + 1) env isStr items members.toList
        = .death "several multi-item captures must be delimited" := by
    intro isStr items
    have hne : ((members.toList.filter isMultiM).length
        + (members.toList.filter isManyM).length == 0) = false := by
      simp only [beq_eq_false_iff_ne, ne_eq]
      have := hG
      simp only [countVarLen] at this
      omega
    have hgt : (decide (2 < (members.toList.filter isMultiM).length
        + (members.toList.filter isManyM).length) : Bool) = true := by
      simp only [decide_eq_true_eq]
      have := hG
      simp only [countVarLen] at this
      omega
    have hgt2 : (decide (2 * members.toList.length
        < 3 * ((members.toList.filter isMultiM).length
          + (members.toList.filter isManyM).length)) : Bool) = true := by
      simp only [decide_eq_true_eq]
      have := hM
      simp only [countVarLen] at this
      omega
    simp [unpackStart, hne, hgt, hgt2]
  rcases hval with ⟨xs, rfl⟩ | ⟨s, rfl⟩ <;> simp [visitPattern, hkey]

/-- C5, witness for the amended check: `[a+ b+ c+]` against the empty
vector dies with the delimiting error. -/
theorem C5_delimit_check_witness :
    visitPattern hostNone [] 4 5 .nil
        (.pUnpack (.ofL [.pNamedMulti "a", .pNamedMulti "b", .pNamedMulti "c"]))
        (.vec .nil)
      = .death "several multi-item captures must be delimited" :=
  C5_delimit_check hostNone [] 3 3 .nil
    (.ofL [.pNamedMulti "a", .pNamedMulti "b", .pNamedMulti "c"])
    (.vec .nil) (Or.inl ⟨.nil, rfl⟩) (by decide) (by decide)

/-! ### C9 — the kernel builtins -/

/-- C9, counterexample.  `Master.kernel` (master.py:84-99) does not
install `#:print`, `#:equals?`, `#:getattr`, `#:precedence`, `#:state`,
`#:from-operator`, `#:kernel-builtin-call` or `#:kernel-glob-call`,
all of which the claim asserts it installs. -/
theorem C9_counterexample :
    (kernelEnv "").lookup "#:print" = none
    ∧ (kernelEnv "").lookup "#:equals?" = none
    ∧ (kernelEnv "").lookup "#:getattr" = none
    ∧ (kernelEnv "").lookup "#:precedence" = none
    ∧ (kernelEnv "").lookup "#:state" = none
    ∧ (kernelEnv "").lookup "#:from-operator" = none
    ∧ (kernelEnv "").lookup "#:kernel-builtin-call" = none
    ∧ (kernelEnv "").lookup "#:kernel-glob-call" = none :=
  ⟨rfl, rfl, rfl, rfl, rfl, rfl, rfl, rfl⟩

/-- C9, amended.  Bootstrapping the kernel installs exactly these seven
builtins under `#:` keys — set-precedence, set-guard-precedence,
builtin, call, to-py, wraps, import — each resolving to a host
callable; a `Builtin` node for one of them evaluates to an `RyBuiltin`
wrapping that callable, while `#:print` (and the other eight names the claim
lists) dies with a builtin-not-found error. -/
theorem C9_kernel_builtins (basis : String) :
    (kernelEnv basis).lookup "#:set-precedence" = some (.pyCallable 4)
    ∧ (kernelEnv basis).lookup "#:set-guard-precedence" = some (.pyCallable 3)
    ∧ (kernelEnv basis).lookup "#:builtin" = some (.pyCallable 0)
    ∧ (kernelEnv basis).lookup "#:call" = some (.pyCallable 1)
    ∧ (kernelEnv basis).lookup "#:to-py" = some (.pyCallable 5)
    ∧ (kernelEnv basis).lookup "#:wraps" = some (.pyCallable 6)
    ∧ (kernelEnv basis).lookup "#:import" = some (.pyCallable 2)
    ∧ (kernelEnv basis).lookup "#:print" = none
    ∧ (kernelEnv basis).lookup "#:equals?" = none
    ∧ (kernelEnv basis).lookup "#:getattr" = none
    ∧ (kernelEnv basis).lookup "#:precedence" = none
    ∧ (kernelEnv basis).lookup "#:state" = none
    ∧ (kernelEnv basis).lookup "#:from-operator" = none
    ∧ (kernelEnv basis).lookup "#:kernel-builtin-call" = none
    ∧ (kernelEnv basis).lookup "#:kernel-glob-call" = none
    ∧ visit hostNone [] 2 2 (kernelEnv basis) (.builtinN "set-precedence")
        = .ok (.builtinB (.pyCallable 4)) (kernelEnv basis) []
    ∧ visit hostNone [] 2 2 (kernelEnv basis) (.builtinN "print")
        = .death "builtin \"print\" not found" :=
  ⟨rfl, rfl, rfl, rfl, rfl, rfl, rfl, rfl, rfl, rfl, rfl, rfl, rfl, rfl, rfl,
   rfl, rfl⟩

/-! ### C1 — Path nodes with an empty path list -/

/-- C1.  The claim says a `Path` node with an empty path list evaluates
like a bare identifier reference.  The `Request` branch
(machine.py:650-654) indeed implements that reference — the bound value
or the fatal `"..." is not defined` — but the `Path` branch
(machine.py:643-649) recursively visits `node.parent`, which the Reader
stores as a plain string (reader.py:281-288), and `_visit_node`
immediately reads `.line` on it (machine.py:418), raising an uncaught
Python AttributeError for every `Path` node. -/
theorem C1_path_empty_vs_request :
    visit hostNone [] 9 9 (.cons "x" (.num 1) .nil) (.path "x" [])
        = .pyErr "AttributeError: str object has no attribute line"
    ∧ visit hostNone [] 9 9 (.cons "x" (.num 1) .nil) (.request "x")
        = .ok (.num 1) (.cons "x" (.num 1) .nil) []
    ∧ visit hostNone [] 9 9 .nil (.request "x")
        = .death "\"x\" is not defined"
    ∧ (∀ (host : HostModel) (store : Store) (sk f : Nat) (env : RyEnvL)
         (parent : String) (route : List String),
        visit host store (sk + 1) (f + 1) env (.path parent route)
          = .pyErr "AttributeError: str object has no attribute line") :=
  ⟨rfl, rfl, rfl, fun _ _ _ _ _ _ _ => rfl⟩

/-! ### C7 — module-cache idempotence -/

theorem containsFalse_not_mem : ∀ (l : List String) (a : String),
    l.contains a = false → a ∉ l := by
  intro l a h hmem
  simp at h
  exact h hmem

theorem evalNeedsGo_resolved (fs : String → Bool) (cache : List String)
    (node : NeedsNode) :
    ∀ (locs : List String) (p : String),
      (locs.map (fun loc => candidatePath loc node)).find? fs = some p →
      evalNeedsGo fs cache node locs
        = if cache.contains p then .ok (cache, 0) else .ok (p :: cache, 1) := by
  intro locs
  induction locs with
  | nil => intro p h; simp at h
  | cons loc rest ih =>
      intro p h
      by_cases hf : fs (candidatePath loc node)
      · rw [List.map_cons, List.find?_cons_of_pos _ hf, Option.some_inj] at h
        subst h
        simp [evalNeedsGo, hf]
      · rw [List.map_cons, List.find?_cons_of_neg _ hf] at h
        simp only [evalNeedsGo, hf, Bool.false_eq_true, if_false]
        exact ih p h

/-- C7.  `Needs` is idempotent on the module cache (machine.py:496-520):
when the resolved path is already cached the branch returns without
re-parsing or re-evaluating the module body and leaves the cache
unchanged, and a first load adds exactly one entry, so the cache ends
with a single entry for the path no matter how often (or with which
flags) the module is required. -/
theorem C7_needs_idempotent (fs : String → Bool) (pathVar : String)
    (cache : List String) (node : NeedsNode) (p : String)
    (hres : resolveNeeds fs pathVar node = some p) :
    (cache.contains p = true → evalNeeds fs pathVar cache node = .ok (cache, 0))
    ∧ (cache.contains p = false →
        evalNeeds fs pathVar cache node = .ok (p :: cache, 1)
        ∧ evalNeeds fs pathVar (p :: cache) node = .ok (p :: cache, 0)
        ∧ (p :: cache).count p = 1) := by
  unfold resolveNeeds at hres
  constructor
  · intro hc
    unfold evalNeeds
    rw [evalNeedsGo_resolved fs cache node _ p hres, if_pos hc]
  · intro hc
    refine ⟨?_, ?_, ?_⟩
    · unfold evalNeeds
      rw [evalNeedsGo_resolved fs cache node _ p hres,
        if_neg (ne_true_of_eq_false hc)]
    · unfold evalNeeds
      rw [evalNeedsGo_resolved fs (p :: cache) node _ p hres,
        if_pos (by simp)]
    · have hnm : p ∉ cache := containsFalse_not_mem cache p hc
      simp [List.count_cons, List.count_eq_zero.mpr hnm]

/-- C7, witness: requiring module `m` over the search path `.;/b` with
the file `./m.ry` present loads it once, and requiring it again (even
`exposed`) leaves the single cache entry and does not re-evaluate. -/
theorem C7_needs_idempotent_witness :
    evalNeeds (fun q => q == "./m.ry") ".;/b" [] ⟨"m", false, false⟩
        = .ok (["./m.ry"], 1)
    ∧ evalNeeds (fun q => q == "./m.ry") ".;/b" ["./m.ry"] ⟨"m", false, true⟩
        = .ok (["./m.ry"], 0) := by
  have h1 := C7_needs_idempotent (fun q => q == "./m.ry") ".;/b" []
    ⟨"m", false, false⟩ "./m.ry" rfl
  have h2 := C7_needs_idempotent (fun q => q == "./m.ry") ".;/b" ["./m.ry"]
    ⟨"m", false, true⟩ "./m.ry" rfl
  exact ⟨(h1.2 rfl).1, h2.1 rfl⟩

/-! ### C10 — if-truthiness, guard strictness, empty bodies -/

theorem isFalseBool_eq_false (v : RyVal) (h : v ≠ .bool false) :
    isFalseBool v = false := by
  cases v <;> try rfl
  rename_i b
  cases b
  · exact absurd rfl h
  · rfl

/-- C10.  In an `if`, every value other than the boolean `false`
selects the true branch (machine.py:471), and a matched branch with an
empty block yields the boolean `true` (machine.py:472-474); a pattern
guard succeeds exactly when its guard expression evaluates to the
boolean `true`, any other result — non-booleans included — failing the
match (machine.py:324-328); a matched case arm with an empty body also
yields `true` (machine.py:434-437). -/
theorem C10_truthiness :
    (∀ (host : HostModel) (store : Store) (sk f : Nat) (env : RyEnvL)
        (condN : RyNode) (other : List RyNode) (v : RyVal)
        (env₁ : RyEnvL) (store₁ : Store),
      visit host store sk f env condN = .ok v env₁ store₁ →
      v ≠ .bool false →
      visit host store (sk + 1) (f + 1) env (.ifN condN [] other)
        = .ok (.bool true) env₁ store₁)
    ∧ (∀ (host : HostModel) (store : Store) (sk f : Nat) (env : RyEnvL)
        (condN c1 : RyNode) (other : List RyNode) (v : RyVal)
        (env₁ : RyEnvL) (store₁ : Store),
      visit host store (sk + 1) (f + 1) env condN = .ok v env₁ store₁ →
      v ≠ .bool false →
      visit host store (sk + 2) (f + 2) env (.ifN condN [c1] other)
        = visit host store₁ (sk + 2) (f + 1) env₁ c1)
    ∧ (∀ (host : HostModel) (store : Store) (sk f : Nat) (env : RyEnvL)
        (param : String) (guardN : RyNode) (value w : RyVal)
        (env₁ : RyEnvL) (store₁ : Store),
      visit host store sk f (env.set param value) guardN = .ok w env₁ store₁ →
      (w = .bool true →
        visitPattern host store (sk + 1) (f + 1) env (.pGuard param guardN) value
          = .res true "" env₁ store₁)
      ∧ (w ≠ .bool true →
        visitPattern host store (sk + 1) (f + 1) env (.pGuard param guardN) value
          = .res false ("vetoed by the guard of \"" ++ param ++ "\"") env₁ store₁))
    ∧ (∀ (host : HostModel) (store : Store) (sk f : Nat) (env : RyEnvL)
        (headN : RyNode) (v : RyVal) (env₁ : RyEnvL) (store₁ : Store),
      visit host store sk (f + 1) env headN = .ok v env₁ store₁ →
      visit host store (sk + 1) (f + 2) env
          (.casesN headN [.matchCase .pDiscard []])
        = .ok (.bool true) env₁ store₁) := by
  refine ⟨?_, ?_, ?_, ?_⟩
  · intro host store sk f env condN other v env₁ store₁ h hv
    simp [visit, h, isFalseBool_eq_false v hv, splitBody]
  · intro host store sk f env condN c1 other v env₁ store₁ h hv
    simp only [visit] at h ⊢
    rw [h]
    simp [isFalseBool_eq_false v hv, splitBody, visitSeq]
  · intro host store sk f env param guardN value w env₁ store₁ h
    constructor
    · intro hw
      subst hw
      simp [visitPattern, h]
    · intro hw
      simp only [visitPattern]
      rw [h]
      cases w
      case bool b =>
        cases b
        · rfl
        · exact absurd rfl hw
      all_goals rfl
  · intro host store sk f env headN v env₁ store₁ h
    simp [visit, h, sortCases, stableSortDesc, insertDesc, armsGo, splitBody]

/-- C10, witness: the number `0`, the empty string and `nothing` all
select the true branch of an `if` with an empty block (yielding `true`);
a guard returning the non-boolean `1` vetoes the match; a `P_Discard`
case arm with an empty body yields `true`. -/
theorem C10_truthiness_witness :
    visit hostNone [] 4 6 .nil (.ifN (.number "0") [] []) = .ok (.bool true) .nil []
    ∧ visit hostNone [] 4 6 .nil (.ifN (.str "") [] []) = .ok (.bool true) .nil []
    ∧ visit hostNone [] 4 6 (.cons "n" .nothing .nil) (.ifN (.request "n") [] [])
        = .ok (.bool true) (.cons "n" .nothing .nil) []
    ∧ visitPattern hostNone [] 4 6 .nil (.pGuard "p" (.number "1")) (.num 5)
        = .res false "vetoed by the guard of \"p\"" (.cons "p" (.num 5) .nil) []
    ∧ visit hostNone [] 4 7 .nil (.casesN (.number "0") [.matchCase .pDiscard []])
        = .ok (.bool true) .nil [] := by
  refine ⟨?_, ?_, ?_, ?_, ?_⟩
  · exact C10_truthiness.1 hostNone [] 3 5 .nil (.number "0") [] (.num 0) .nil []
      rfl (by simp)
  · exact C10_truthiness.1 hostNone [] 3 5 .nil (.str "") [] (.str "") .nil []
      rfl (by simp)
  · exact C10_truthiness.1 hostNone [] 3 5 (.cons "n" .nothing .nil) (.request "n")
      [] .nothing (.cons "n" .nothing .nil) [] rfl (by simp)
  · exact ((C10_truthiness.2.2.1 hostNone [] 3 5 .nil "p" (.number "1") (.num 5)
      (.num 1) (.cons "p" (.num 5) .nil) [] rfl).2 (by simp))
  · exact C10_truthiness.2.2.2 hostNone [] 3 5 .nil (.number "0") (.num 0) .nil []
      rfl

/-! ### C2 — quoted function definitions and operator registration -/

/-- The switch tables after registering the quoted infix `\x27zap` at
precedence `prec`. -/
def C2swInfix (prec : Int) : Switches :=
  addKeyword (addOperator initialSwitches "ZAP" "left" prec) "zap"

/-- The switch tables after registering the quoted prefix `\x27nope`. -/
def C2swPre : Switches :=
  addKeyword (addPrefixT initialSwitches "NOPE") "nope"

/-- C2.  A quoted function definition with arity outside `\x7b1, 2\x7d` is a
fatal error — the machine's Function branch checks this
(machine.py:446-449) — and, per the spec-modelled registration step
(`registerQuoted`), an arity-2 definition registers the name as a
left-associative infix at the current `*PREC*` and the bare spelling as
a keyword, so the next form `a zap b` lexes `zap` as an operator token
and parses as the call `(\x27zap a b)`; an arity-1 definition registers a
prefix, parsing `nope a` as `(\x27nope a)`. -/
theorem C2_quoted_registration (prec : Int) (h : 0 < prec) :
    visit hostNone [] 9 9 .nil
        (.function "\x27zap"
          (.ofL [.pIdentifier "x", .pIdentifier "y", .pIdentifier "z"])
          [] false true false)
      = .death "expected either a prefix (arity = 1) or infix (arity = 2), got arity = 3"
    ∧ registerQuoted initialSwitches "\x27zap" 3 prec
      = .error "expected either a prefix (arity = 1) or infix (arity = 2), got arity = 3"
    ∧ (registerQuoted initialSwitches "\x27zap" 2 prec = .ok (C2swInfix prec)
        ∧ alGet (C2swInfix prec).precedence "ZAP" = some ("left", prec)
        ∧ (C2swInfix prec).keywords.contains "zap" = true
        ∧ lexWord (C2swInfix prec) "zap" = ⟨"ZAP", "zap"⟩
        ∧ lexWord (C2swInfix prec) "a" = ⟨"ID", "a"⟩
        ∧ pOpExpr (C2swInfix prec) 0 20 ⟨[⟨"ID", "a"⟩, ⟨"ZAP", "zap"⟩, ⟨"ID", "b"⟩]⟩
            = .node (.call (.path "\x27zap" []) [.path "a" [], .path "b" []]) ⟨[]⟩)
    ∧ (registerQuoted initialSwitches "\x27nope" 1 prec = .ok C2swPre
        ∧ C2swPre.prefixesT.contains "NOPE" = true
        ∧ C2swPre.keywords.contains "nope" = true
        ∧ pPre C2swPre 20 ⟨[⟨"NOPE", "nope"⟩, ⟨"ID", "a"⟩]⟩
            = .node (.call (.path "\x27nope" []) [.path "a" []]) ⟨[]⟩) := by
  refine ⟨rfl, rfl, ⟨rfl, rfl, rfl, rfl, rfl, ?_⟩, ⟨rfl, rfl, rfl, rfl⟩⟩
  have h0 : ¬ ((0 : Int) ≥ prec) := not_le.mpr h
  have hscrut : pOpExpr (C2swInfix prec) (prec - 0) 18 ⟨[⟨"ID", "b"⟩]⟩
      = .node (.path "b" []) ⟨[]⟩ := by
    show (if prec - 0 ≥ (0 : Int)
        then PRes.node (.path "b" []) ⟨[]⟩
        else PRes.node (.path "b" []) ⟨[]⟩)
      = .node (.path "b" []) ⟨[]⟩
    exact ite_self _
  show (if (0 : Int) ≥ prec
      then PRes.node (.path "a" []) ⟨[⟨"ZAP", "zap"⟩, ⟨"ID", "b"⟩]⟩
      else
        match pOpExpr (C2swInfix prec) (prec - 0) 18 ⟨[⟨"ID", "b"⟩]⟩ with
        | .node right st₂ =>
            pOpLoop (C2swInfix prec) 0 18
              (.call (.path "\x27zap" []) [.path "a" [], right]) st₂
        | .fls st₂ =>
            .rerr ("expected right hand side of an expression, found "
              ++ prettyTokType (curType st₂))
        | .rerr m => .rerr m
        | .pNoFuel => .pNoFuel)
    = .node (.call (.path "\x27zap" []) [.path "a" [], .path "b" []]) ⟨[]⟩
  rw [if_neg h0, hscrut]
  rfl

/-- C2, witness: the registration and parse at `*PREC*` = 1. -/
theorem C2_quoted_registration_witness :
    registerQuoted initialSwitches "\x27zap" 2 1 = .ok (C2swInfix 1)
    ∧ pOpExpr (C2swInfix 1) 0 20 ⟨[⟨"ID", "a"⟩, ⟨"ZAP", "zap"⟩, ⟨"ID", "b"⟩]⟩
        = .node (.call (.path "\x27zap" []) [.path "a" [], .path "b" []]) ⟨[]⟩ := by
  have hc := C2_quoted_registration 1 (by decide)
  exact ⟨hc.2.2.1.1, hc.2.2.1.2.2.2.2.2⟩

/-! ### C8 — tail-call optimisation -/

/-- Host oracle for the C8 loop: callable 0 is a wrapped Python helper
returning the tail of a non-empty vector. -/
def C8host : HostModel := fun _ args =>
  match args with
  | [.vec (.cons _ t)] => .val (.vec t)
  | _ => .exn "tl expected a non-empty vector"

/-- Variation matching the empty vector: the base case of the loop. -/
def C8v1 : RyFunc :=
  ⟨"loop", RyPriority.compare, .ofL [.pCompare (.vector [])], [.str "done"], 0⟩

/-- Variation binding the whole vector and tail-calling the loop on its
tail. -/
def C8v2 : RyFunc :=
  ⟨"loop", RyPriority.identifier, .ofL [.pIdentifier "xs"],
    [.call (.request "loop") [.call (.request "tl") [.request "xs"]]], 0⟩

def C8vars : RyVars := ⟨"loop", false, false, [C8v1, C8v2]⟩

/-- The captured state of the loop variations (store slot 0). -/
def C8baseEnv : RyEnvL :=
  .cons "loop" (.variationsV C8vars)
    (.cons "tl" (.builtinB (.pyCallable 0)) .nil)

/-- The environment of one loop iteration: the captured state with the
current vector bound to the loop parameter. -/
def C8env (v : RyVal) : RyEnvL :=
  .cons "loop" (.variationsV C8vars)
    (.cons "tl" (.builtinB (.pyCallable 0)) (.cons "xs" v .nil))

/-- C8, amended.  The TCO loop itself is real: when a matched
variation's last body node is a call, `_visit_node` rewrites the current
node and state in place (machine.py:595-612; the continuation in
`callNormal` re-enters `visit` at the caller's own frame budget), so a
self-tail-recursive loop over a vector of any length runs to completion
at a constant frame budget of 9 and fuel linear in the iteration count:
depth is bounded by expression nesting, not by the number of
iterations.  (The claim's own example program is wrong, though — see
the counterexample.) -/
theorem C8_tco : ∀ (rest : RyValList) (hd : RyVal) (g : Nat),
    visit C8host [C8baseEnv] 9 (2 * rest.length + (g + 20))
        (C8env (.vec (.cons hd rest)))
        (.call (.request "loop") [.call (.request "tl") [.request "xs"]])
      = .ok (.str "done") (C8env (.vec (.cons hd rest))) [C8baseEnv]
  | .nil, hd, g => rfl
  | .cons y t, hd, g => by
      have harith : 2 * RyValList.length (RyValList.cons y t) + (g + 20)
          = 2 * RyValList.length t + (g + 20) + 1 + 1 := by
        simp only [RyValList.length]
        omega
      rw [harith]
      have ih := C8_tco t y g
      show (match visit C8host [C8baseEnv] 9 (2 * RyValList.length t + (g + 20))
              (C8env (.vec (.cons y t)))
              (.call (.request "loop") [.call (.request "tl") [.request "xs"]]) with
          | .ok v _ store₅ =>
              EvalRes.ok v (C8env (.vec (.cons hd (.cons y t)))) store₅
          | .retEx v s => .retEx v s
          | .death m => .death m
          | .pyErr m => .pyErr m
          | .overflow => .overflow
          | .noFuel => .noFuel)
        = .ok (.str "done") (C8env (.vec (.cons hd (.cons y t)))) [C8baseEnv]
      rw [ih]

/-- The claim's example program `loop 0 -> "done"; loop (num n) -> ...`:
the base variation compares with 0, the recursive one uses the extract
pattern `(num n)`. -/
def C8badV1 : RyFunc :=
  ⟨"loop", RyPriority.compare, .ofL [.pCompare (.number "0")], [.str "done"], 0⟩

def C8badV2 : RyFunc :=
  ⟨"loop", (RyPriority.extract + RyPriority.identifier) * 2,
    .ofL [.pExtract "num" (.ofL [.pIdentifier "n"])], [.str "unreached"], 0⟩

def C8badVars : RyVars := ⟨"loop", false, false, [C8badV1, C8badV2]⟩

def C8badEnv : RyEnvL :=
  .cons "loop" (.variationsV C8badVars) (.cons "num" (.typeT "num") .nil)

/-- C8, counterexample to the claim's example: in `loop 100000` the
extract pattern `(num n)` looks up `num` in the environment, finds the
type value, and — the type not being an object — falls into the
equality comparison of `_visit_pattern`'s P_Extract branch
(machine.py:341-344), which compares the type value with the number and
fails; no variation matches and the call dies with the no-match error
instead of iterating, so the example cannot return "done".  (`loop 0`
does match the compare variation and yields "done".) -/
theorem C8_counterexample :
    visit hostNone [C8badEnv] 9 20 C8badEnv
        (.call (.request "loop") [.number "100000"])
      = .death (mkNoMatchMsg 2 [.num 100000])
    ∧ visit hostNone [C8badEnv] 9 20 C8badEnv
        (.call (.request "loop") [.number "0"])
      = .ok (.str "done") C8badEnv [C8badEnv] := ⟨rfl, rfl⟩

end Rydesta
